import Mathlib

/-!
Comment overlay (`src/components/CommentsModal.js`)

A shallow embedding of the state handled by the `CommentsModal` component and of its
handlers `fetchComments`, `handleReply`, `cancelReply`, `handleDeleteComment`,
`handleSubmit` and `handleEmojiSelect`.

* The React state cells (`useState`) are the fields of `State`.
* The remote collaborator `commentAPI` is not part of the component: what a call resolves
  to is an argument of the handler (`FetchOutcome`, `CreateOutcome`, `DeleteOutcome`), and
  the calls a handler issues are returned as a list of `Effect`s, in program order.
* An `async` handler is cut at its `await`: the part after the `await` is a `...Resume`
  function that receives the state its closure captured (`closure`) and the state the
  setters act on when the promise settles (`cur`).  Running a handler with nothing in
  between is the function named like the handler itself.
-/

namespace CommentsModal

/-! ## JavaScript strings -/

/-- White space and line terminators of ECMAScript, the code points that
`String.prototype.trim` strips. -/
def isJsWhiteSpace (c : Char) : Bool :=
  let n := c.toNat
  n = 0x09 || n = 0x0A || n = 0x0B || n = 0x0C || n = 0x0D || n = 0x20 || n = 0xA0 ||
  n = 0x1680 || (0x2000 ≤ n && n ≤ 0x200A) || n = 0x2028 || n = 0x2029 || n = 0x202F ||
  n = 0x205F || n = 0x3000 || n = 0xFEFF

/-- The list form of `String.prototype.trim`: leading white space is dropped, then trailing. -/
def trimChars (cs : List Char) : List Char :=
  ((cs.dropWhile isJsWhiteSpace).reverse.dropWhile isJsWhiteSpace).reverse

/-- The built-in `String.prototype.trim` (`newComment.trim()`). -/
def jsTrim (s : String) : String :=
  String.mk (trimChars s.data)

/-- Truthiness of a string value: every string but the empty one. -/
def jsTruthy (s : String) : Bool :=
  !(s.data.isEmpty)

/-- Number of UTF-16 code units of one code point. -/
def utf16Units (c : Char) : Nat :=
  if c.toNat < 0x10000 then 1 else 2

/-- The `length` of a string value: its number of UTF-16 code units (what `maxLength`
counts). -/
def jsLength (s : String) : Nat :=
  (s.data.map utf16Units).sum

/-! ## Data -/

/-- The user summary carried by a comment (`replyingTo.user.username`,
`replyingTo.user.name`). -/
structure User where
  username : String
  name : String
  deriving DecidableEq, Repr

/-- A comment as the component reads it: `_id` is the key the list, the filter of
`handleDeleteComment` and `parentId` use. -/
structure Comment where
  _id : String
  user : User
  content : String
  deriving DecidableEq, Repr

/-- The `useState` cells of `CommentsModal` (lines 30-36). -/
structure State where
  comments : List Comment
  loading : Bool
  submitting : Bool
  newComment : String
  replyingTo : Option Comment
  showEmojiPicker : Bool
  deriving DecidableEq, Repr

/-- The state of a freshly mounted component: the initial values handed to `useState`. -/
def State.initial : State :=
  { comments := [], loading := false, submitting := false, newComment := "",
    replyingTo := none, showEmojiPicker := false }

/-- What a handler does besides setting state, in program order. -/
inductive Effect where
  | getComments (postId : String)
  | createComment (postId : String) (content : String) (parentId : Option String)
  | deleteComment (commentId : String)
  | focusInput
  | keyboardDismiss
  | consoleError (message : String)
  | animatedSpring (toValue : Nat)
  | animatedTiming (toValue : Nat) (duration : Nat)
  deriving DecidableEq, Repr

/-- How `await commentAPI.getComments(postId)` settles. -/
inductive FetchOutcome where
  | threw
  | response (success : Bool) (comments : List Comment)
  deriving DecidableEq, Repr

/-- How `await commentAPI.createComment(postId, content, parentId)` settles. -/
inductive CreateOutcome where
  | threw
  | response (success : Bool) (comment : Comment)
  deriving DecidableEq, Repr

/-- How `await commentAPI.deleteComment(commentId)` settles. -/
inductive DeleteOutcome where
  | threw
  | response (success : Bool)
  deriving DecidableEq, Repr

/-! ## Handlers -/

/-- Lines 61-63 of `fetchComments`: `setLoading(true)` and the call, up to the `await`. -/
def fetchCommentsStart (postId : String) (cur : State) : State × List Effect :=
  ({ cur with loading := true }, [Effect.getComments postId])

/-- Lines 64-71 of `fetchComments`: what runs once the call has settled. -/
def fetchCommentsResume (out : FetchOutcome) (cur : State) : State × List Effect :=
  match out with
  | FetchOutcome.response true cs => ({ cur with comments := cs, loading := false }, [])
  | FetchOutcome.response false _ => ({ cur with loading := false }, [])
  | FetchOutcome.threw =>
      ({ cur with loading := false }, [Effect.consoleError "Error fetching comments:"])

/-- The handler `fetchComments` (lines 60-72) run from start to end. -/
def fetchComments (postId : String) (out : FetchOutcome) (s : State) : State × List Effect :=
  let started := fetchCommentsStart postId s
  let resumed := fetchCommentsResume out started.1
  (resumed.1, started.2 ++ resumed.2)

/-- The handler `handleReply` (lines 74-78); an absent `username` is `none`. -/
def handleReply (comment : Comment) (username : Option String) (s : State) :
    State × List Effect :=
  let draft :=
    match username with
    | some u => if jsTruthy u then "@" ++ u ++ " " else ""
    | none => ""
  ({ s with replyingTo := some comment, newComment := draft }, [Effect.focusInput])

/-- The handler `cancelReply` (lines 80-84). -/
def cancelReply (s : State) : State × List Effect :=
  ({ s with replyingTo := none, newComment := "" }, [Effect.keyboardDismiss])

/-- The array `comments.filter(c => c._id !== commentId)` of line 90. -/
def removeById (commentId : String) (comments : List Comment) : List Comment :=
  comments.filter (fun c => decide (c._id ≠ commentId))

/-- Lines 89-94 of `handleDeleteComment`: what runs once the delete call has settled.
The array that is filtered is the `comments` of the closure. -/
def handleDeleteCommentResume (commentId : String) (closure : State) (out : DeleteOutcome)
    (cur : State) : State × List Effect :=
  match out with
  | DeleteOutcome.response true =>
      ({ cur with comments := removeById commentId closure.comments }, [])
  | DeleteOutcome.response false => (cur, [])
  | DeleteOutcome.threw => (cur, [Effect.consoleError "Error deleting comment:"])

/-- The handler `handleDeleteComment` (lines 86-95) run from start to end. -/
def handleDeleteComment (commentId : String) (out : DeleteOutcome) (s : State) :
    State × List Effect :=
  let resumed := handleDeleteCommentResume commentId s out s
  (resumed.1, Effect.deleteComment commentId :: resumed.2)

/-- The value `replyingTo ? replyingTo._id : null` of line 103. -/
def parentIdOf (replyingTo : Option Comment) : Option String :=
  replyingTo.map (fun c => c._id)

/-- The test `if (parentId)` of line 108: `null` and the empty string are falsy. -/
def parentIdTruthy (parentId : Option String) : Bool :=
  match parentId with
  | some p => jsTruthy p
  | none => false

/-- Lines 107-122 of `handleSubmit`: what runs once the create call has settled.  The
`comments` that are spread and the `parentId` that is tested belong to the closure. -/
def handleSubmitResume (postId : String) (closure : State) (out : CreateOutcome)
    (cur : State) : State × List Effect :=
  match out with
  | CreateOutcome.response true comment =>
      let stored : State × List Effect :=
        if parentIdTruthy (parentIdOf closure.replyingTo) then
          fetchCommentsStart postId cur
        else
          ({ cur with comments := comment :: closure.comments }, [])
      ({ stored.1 with newComment := "", replyingTo := none, showEmojiPicker := false,
                       submitting := false },
        stored.2 ++ [Effect.keyboardDismiss])
  | CreateOutcome.response false _ => ({ cur with submitting := false }, [])
  | CreateOutcome.threw =>
      ({ cur with submitting := false }, [Effect.consoleError "Error adding comment:"])

/-- The handler `handleSubmit` (lines 97-123) run from start to end. -/
def handleSubmit (postId : String) (out : CreateOutcome) (s : State) : State × List Effect :=
  if jsTruthy (jsTrim s.newComment) then
    let content := jsTrim s.newComment
    let parentId := parentIdOf s.replyingTo
    let resumed := handleSubmitResume postId s out { s with submitting := true }
    (resumed.1, Effect.createComment postId content parentId :: resumed.2)
  else
    (s, [])

/-- The handler `handleEmojiSelect` (lines 125-127). -/
def handleEmojiSelect (emoji : String) (s : State) : State × List Effect :=
  ({ s with newComment := s.newComment ++ emoji }, [])

/-- The `disabled` property of the Post button (line 244). -/
def postButtonDisabled (s : State) : Bool :=
  !(jsTruthy (jsTrim s.newComment)) || s.submitting

/-- A press on the Post button (lines 241-245): a disabled touchable does not call its
`onPress`, an enabled one calls `handleSubmit`. -/
def pressPostButton (postId : String) (out : CreateOutcome) (s : State) :
    State × List Effect :=
  if postButtonDisabled s then (s, []) else handleSubmit postId out s

/-- The `onChangeText` of the `TextInput` (line 236), which is `setNewComment` itself: the
text the input hands over becomes the draft.  The input is given `maxLength={500}` at
line 238, so what it hands over when the user types has 500 code units at most; the
handler itself does not look at the length. -/
def onChangeText (text : String) (s : State) : State × List Effect :=
  ({ s with newComment := text }, [])

/-- Whether an effect is a call of the create operation. -/
def Effect.isCreate : Effect → Bool
  | Effect.createComment _ _ _ => true
  | _ => false

/-- Whether an effect is a call of the fetch operation. -/
def Effect.isFetch : Effect → Bool
  | Effect.getComments _ => true
  | _ => false

/-! ## The visibility effect -/

/-- The body of the effect of lines 39-58, which runs after a render in which `visible` or
`postId` changed.  With `visible` it starts `fetchComments` (which runs up to its `await`)
and the entrance animation; without, it starts the exit animation and resets the reply
target, the draft and the emoji picker.  The `comments` cell is written in neither branch. -/
def visibilityEffect (visible : Bool) (postId : String) (s : State) : State × List Effect :=
  if visible then
    let started := fetchCommentsStart postId s
    (started.1, started.2 ++ [Effect.animatedSpring 1])
  else
    ({ s with replyingTo := none, newComment := "", showEmojiPicker := false },
      [Effect.animatedTiming 0 200])

/-! ## Calls that settle later -/

/-- The second half of an `async` handler, run when its call settles: the state its closure
captured when the handler was invoked travels with it. -/
inductive Settled where
  | fetch (out : FetchOutcome)
  | submit (postId : String) (closure : State) (out : CreateOutcome)
  | delete (commentId : String) (closure : State) (out : DeleteOutcome)
  deriving DecidableEq, Repr

/-- The state after a call has settled in the state `cur`. -/
def Settled.apply (e : Settled) (cur : State) : State :=
  match e with
  | Settled.fetch out => (fetchCommentsResume out cur).1
  | Settled.submit postId closure out => (handleSubmitResume postId closure out cur).1
  | Settled.delete commentId closure out =>
      (handleDeleteCommentResume commentId closure out cur).1

/-- The state after the calls of a list have settled, one after the other. -/
def settleAll (es : List Settled) (cur : State) : State :=
  es.foldl (fun s e => e.apply s) cur

/-- The ids of a list of comments, in order. -/
def idsOf (comments : List Comment) : List String :=
  comments.map (fun c => c._id)

/-- What is assumed of a call that settles, `past` being the values the `comments` cell has
held so far: a fetched list has no two entries with the same id; the closure of a
successful submission or deletion holds a value of the cell (the one of the render it was
invoked in); and the comment a submission created has an id that this value does not
hold. -/
def Settled.admissible (past : List (List Comment)) (e : Settled) : Bool :=
  match e with
  | Settled.fetch (FetchOutcome.response true cs) => decide (idsOf cs).Nodup
  | Settled.fetch _ => true
  | Settled.submit _ closure (CreateOutcome.response true c) =>
      decide (closure.comments ∈ past) && decide (c._id ∉ idsOf closure.comments)
  | Settled.submit _ _ _ => true
  | Settled.delete _ closure (DeleteOutcome.response true) => decide (closure.comments ∈ past)
  | Settled.delete _ _ _ => true

/-- The values the `comments` cell takes while the calls of a list settle, the latest
first, on top of the values `past` it took before. -/
def storesAlong (es : List Settled) (cur : State) (past : List (List Comment)) :
    List (List Comment) :=
  match es with
  | [] => past
  | e :: rest => storesAlong rest (e.apply cur) ((e.apply cur).comments :: past)

/-- Whether every call of a list is admissible at the moment it settles. -/
def admissibleAlong (es : List Settled) (cur : State) (past : List (List Comment)) : Bool :=
  match es with
  | [] => true
  | e :: rest =>
      e.admissible past &&
        admissibleAlong rest (e.apply cur) ((e.apply cur).comments :: past)

/-- What can run while the overlay is closed.  The `Modal` of line 135 does not show its
children then, so none of the handlers wired to them is invoked: a call issued earlier
settles, or the effect runs again because `postId` changed while `visible` stayed false. -/
inductive WhileClosed where
  | settled (e : Settled)
  | postIdChanged (postId : String)
  deriving DecidableEq, Repr

/-- The state after one step taken while the overlay is closed. -/
def WhileClosed.apply (w : WhileClosed) (cur : State) : State :=
  match w with
  | WhileClosed.settled e => e.apply cur
  | WhileClosed.postIdChanged postId => (visibilityEffect false postId cur).1

/-- The state after a list of steps taken while the overlay is closed. -/
def whileClosedAll (ws : List WhileClosed) (cur : State) : State :=
  ws.foldl (fun s w => w.apply s) cur

/-! ## Control flow of the handlers -/

/-- How a block of statements ends: it runs to its end (or returns), or an error leaves
it. -/
inductive Completion where
  | normal
  | thrown (error : String)
  deriving DecidableEq, Repr

/-- A block that has run: the state it left, what it issued, and how it ended. -/
structure Run where
  state : State
  effects : List Effect
  completion : Completion
  deriving DecidableEq, Repr

/-- A clause `catch (error) { console.error(message, error); }`: an error that left the
block is logged and goes no further. -/
def Run.catchLog (message : String) (r : Run) : Run :=
  match r.completion with
  | Completion.thrown _ =>
      { state := r.state, effects := r.effects ++ [Effect.consoleError message],
        completion := Completion.normal }
  | Completion.normal => r

/-- A clause `finally` made of state setters: it runs however the block ended and leaves
that ending as it is. -/
def Run.finallySet (f : State → State) (r : Run) : Run :=
  { r with state := f r.state }

/-- The `try` block of `fetchComments` (lines 62-66): a call that throws leaves the block
at the `await`. -/
def fetchCommentsTry (postId : String) (out : FetchOutcome) (s : State) : Run :=
  match out with
  | FetchOutcome.threw =>
      { state := { s with loading := true }, effects := [Effect.getComments postId],
        completion := Completion.thrown "getComments" }
  | FetchOutcome.response true cs =>
      { state := { s with loading := true, comments := cs },
        effects := [Effect.getComments postId], completion := Completion.normal }
  | FetchOutcome.response false _ =>
      { state := { s with loading := true }, effects := [Effect.getComments postId],
        completion := Completion.normal }

/-- The handler `fetchComments` (lines 60-72) with its `try`, `catch` and `finally`. -/
def fetchCommentsRun (postId : String) (out : FetchOutcome) (s : State) : Run :=
  ((fetchCommentsTry postId out s).catchLog "Error fetching comments:").finallySet
    (fun t => { t with loading := false })

/-- The `try` block of `handleDeleteComment` (lines 88-91). -/
def handleDeleteCommentTry (commentId : String) (out : DeleteOutcome) (s : State) : Run :=
  match out with
  | DeleteOutcome.threw =>
      { state := s, effects := [Effect.deleteComment commentId],
        completion := Completion.thrown "deleteComment" }
  | DeleteOutcome.response true =>
      { state := { s with comments := removeById commentId s.comments },
        effects := [Effect.deleteComment commentId], completion := Completion.normal }
  | DeleteOutcome.response false =>
      { state := s, effects := [Effect.deleteComment commentId],
        completion := Completion.normal }

/-- The handler `handleDeleteComment` (lines 86-95) with its `try` and `catch`. -/
def handleDeleteCommentRun (commentId : String) (out : DeleteOutcome) (s : State) : Run :=
  (handleDeleteCommentTry commentId out s).catchLog "Error deleting comment:"

/-- The `try` block of `handleSubmit` (lines 101-117).  The `fetchComments()` of line 109
is not awaited: the block goes on once that call has reached its own `await`. -/
def handleSubmitTry (postId : String) (out : CreateOutcome) (s : State) : Run :=
  let content := jsTrim s.newComment
  let parentId := parentIdOf s.replyingTo
  let call := Effect.createComment postId content parentId
  let s1 : State := { s with submitting := true }
  match out with
  | CreateOutcome.threw =>
      { state := s1, effects := [call], completion := Completion.thrown "createComment" }
  | CreateOutcome.response true comment =>
      let stored : State × List Effect :=
        if parentIdTruthy parentId then fetchCommentsStart postId s1
        else ({ s1 with comments := comment :: s.comments }, [])
      { state := { stored.1 with newComment := "", replyingTo := none,
                                 showEmojiPicker := false },
        effects := call :: (stored.2 ++ [Effect.keyboardDismiss]),
        completion := Completion.normal }
  | CreateOutcome.response false _ =>
      { state := s1, effects := [call], completion := Completion.normal }

/-- The handler `handleSubmit` (lines 97-123) with its early `return`, its `try`, `catch`
and `finally`. -/
def handleSubmitRun (postId : String) (out : CreateOutcome) (s : State) : Run :=
  if jsTruthy (jsTrim s.newComment) then
    ((handleSubmitTry postId out s).catchLog "Error adding comment:").finallySet
      (fun t => { t with submitting := false })
  else
    { state := s, effects := [], completion := Completion.normal }

/-! ## Sample data -/

/-- A sample author. -/
def bob : User := { username := "bob", name := "Bob" }

/-- A sample comment with id `c1`. -/
def c1 : Comment := { _id := "c1", user := bob, content := "hi" }

/-- A sample comment with id `c2`. -/
def c2 : Comment := { _id := "c2", user := bob, content := "thanks" }

/-- A sample comment with id `c3`. -/
def c3 : Comment := { _id := "c3", user := bob, content := "new" }

/-- A comment whose `_id` is the empty string. -/
def cEmptyId : Comment := { _id := "", user := bob, content := "hi" }

/-- An open overlay holding `c1` with the draft `"  hello "` and no reply target. -/
def sDraft : State :=
  { comments := [c1], loading := false, submitting := false, newComment := "  hello ",
    replyingTo := none, showEmojiPicker := false }

/-- The state `sDraft` with the reply target `c1`. -/
def sReply : State := { sDraft with replyingTo := some c1 }

/-- The state `sDraft` with a reply target whose `_id` is the empty string. -/
def sReplyEmptyId : State := { sDraft with replyingTo := some cEmptyId }

/-- The state `sDraft` while a submission is in flight. -/
def sInFlight : State := { sDraft with submitting := true }

/-- An open overlay whose draft is three spaces. -/
def sBlank : State := { sDraft with newComment := "   " }

/-- A draft of 500 letters, the longest the input lets the user type. -/
def draft500 : String := String.mk (List.replicate 500 'a')

/-- The composer after typing `draft500` and picking one emoji from the picker. -/
def sOverlong : State :=
  (handleEmojiSelect "😂" (onChangeText draft500 State.initial).1).1

/-- An overlay holding `c1` and `c2`, with the reply target `c1`, a draft and the emoji
picker shown. -/
def sBusy : State :=
  { comments := [c1, c2], loading := false, submitting := false, newComment := "@bob hi",
    replyingTo := some c1, showEmojiPicker := true }

/-- The component after its first render, with a draft typed and nothing loaded yet. -/
def sTyped : State := { State.initial with newComment := "first" }

/-- Three calls that settle out of order: a submission invoked on the empty store settles
after a fetch has loaded `c1` and `c2`, then a deletion invoked on the loaded store. -/
def interleaved : List Settled :=
  [Settled.fetch (FetchOutcome.response true [c1, c2]),
   Settled.submit "p1" sTyped (CreateOutcome.response true c3),
   Settled.delete "c1" sBusy (DeleteOutcome.response true)]

/-- The state `sBusy` after a fetch that was in flight has loaded `c1`, `c2` and `c3`. -/
def sLoaded : State :=
  (fetchCommentsResume (FetchOutcome.response true [c1, c2, c3]) sBusy).1

/-- The state `sDraft` after a top-level submission has put `c2` before `c1`. -/
def sPrepended : State :=
  (handleSubmit "p1" (CreateOutcome.response true c2) sDraft).1

/-! ## What the handlers hand back -/

/-- A value an `async` handler can resolve to. -/
inductive JsValue where
  | undefined
  | boolean (b : Bool)
  | comment (c : Comment)
  | comments (cs : List Comment)
  deriving DecidableEq, Repr

/-- The value `fetchComments` (lines 60-72) resolves to: none of its paths has a `return`
statement. -/
def fetchCommentsValue (out : FetchOutcome) : JsValue :=
  match out with
  | FetchOutcome.response true _ => JsValue.undefined
  | FetchOutcome.response false _ => JsValue.undefined
  | FetchOutcome.threw => JsValue.undefined

/-- The value `handleDeleteComment` (lines 86-95) resolves to: none of its paths has a
`return` statement. -/
def handleDeleteCommentValue (out : DeleteOutcome) : JsValue :=
  match out with
  | DeleteOutcome.response true => JsValue.undefined
  | DeleteOutcome.response false => JsValue.undefined
  | DeleteOutcome.threw => JsValue.undefined

/-- The value `handleSubmit` (lines 97-123) resolves to: line 98 is a `return` without a
value, and no other path has a `return` statement. -/
def handleSubmitValue (out : CreateOutcome) (s : State) : JsValue :=
  if jsTruthy (jsTrim s.newComment) then
    match out with
    | CreateOutcome.response true _ => JsValue.undefined
    | CreateOutcome.response false _ => JsValue.undefined
    | CreateOutcome.threw => JsValue.undefined
  else
    JsValue.undefined

/-- Lines 98-105 of `handleSubmit`, up to the `await`: the early `return`, or
`setSubmitting(true)` followed by the call of the create operation. -/
def handleSubmitStart (postId : String) (s : State) : State × List Effect :=
  if jsTruthy (jsTrim s.newComment) then
    ({ s with submitting := true },
      [Effect.createComment postId (jsTrim s.newComment) (parentIdOf s.replyingTo)])
  else
    (s, [])

end CommentsModal

/-! # Theme (`src/theme/themeUtils.js`, `src/context/ThemeContext.js`) -/

namespace ThemeUtils

/-- The `mode` handed to `getTheme`: a string, or the `null` or `undefined` that
`useColorScheme` can give. -/
inductive Scheme where
  | text (s : String)
  | null
  | undefined
  deriving DecidableEq, Repr

/-- The object `colors.primary`: the two fields `getTheme` writes, and the others. -/
structure Primary (ρ : Type) where
  main : String
  gradient : List String
  others : ρ
  deriving DecidableEq, Repr

/-- The objects `colors.background` and `colors.text`: a dark and a light palette. -/
structure Palettes (π : Type) where
  dark : π
  light : π
  deriving DecidableEq, Repr

/-- The table `colors` imported from `./colors`, a file that is not among the sources: the
fields `getTheme` reads, and the others. -/
structure Colors (ρ β τ κ : Type) where
  primary : Primary ρ
  background : Palettes β
  text : Palettes τ
  others : κ
  deriving DecidableEq, Repr

/-- The object `getTheme` returns: the spread of `colors` with `primary`, `background` and
`text` overridden, and the fields `isDark` and `mode`. -/
structure Theme (ρ β τ κ : Type) where
  primary : Primary ρ
  background : β
  text : τ
  isDark : Bool
  mode : Scheme
  others : κ
  deriving DecidableEq, Repr

/-- The helper `adjustColor` (lines 35-37). -/
def adjustColor (color : String) (_amount : Int) : String :=
  color

/-- The function `getTheme` (lines 3-31); an absent or `null` accent colour is `none`. -/
def getTheme {ρ β τ κ : Type} (colors : Colors ρ β τ κ) (mode : Scheme)
    (accentColor : Option String) : Theme ρ β τ κ :=
  let isDark : Bool := decide (mode = Scheme.text "dark")
  { primary :=
      match accentColor with
      | some accent =>
          if CommentsModal.jsTruthy accent then
            { colors.primary with main := accent, gradient := [accent, adjustColor accent 20] }
          else colors.primary
      | none => colors.primary
    background := if isDark then colors.background.dark else colors.background.light
    text := if isDark then colors.text.dark else colors.text.light
    isDark := isDark
    mode := mode
    others := colors.others }

/-- The `activeMode` of `ThemeProvider` (line 52 of `ThemeContext.js`). -/
def activeMode (themeMode : String) (systemScheme : Scheme) : Scheme :=
  if themeMode = "system" then systemScheme else Scheme.text themeMode

/-- A sample table of colours. -/
def sampleColors : Colors String String String Unit :=
  { primary := { main := "#6C63FF", gradient := ["#6C63FF", "#8E85FF"], others := "light" }
    background := { dark := "bg-dark", light := "bg-light" }
    text := { dark := "text-dark", light := "text-light" }
    others := () }

end ThemeUtils

/-! # Follow button (`src/screens/UserProfileScreen.js`) -/

namespace UserProfileScreen

/-- The object `userProfile`: its follower count (a number, or absent) and its other
fields. -/
structure UserProfile (ρ : Type) where
  followersCount : Option Int
  others : ρ
  deriving DecidableEq, Repr

/-- The `useState` cells `handleFollow` writes (lines 29, 32, 33).  `handleFollow` is wired
to a button that is rendered only once `userProfile` is set, so the profile is an
object. -/
structure State (ρ : Type) where
  userProfile : UserProfile ρ
  isFollowing : Bool
  followLoading : Bool
  deriving DecidableEq, Repr

/-- How `await userAPI.followUser(userId)` settles. -/
inductive FollowOutcome where
  | threw
  | response (success : Bool) (isFollowing : Bool) (followersCount : Option Int)
  deriving DecidableEq, Repr

/-- The operator `||` between two counts: the left one when it is truthy (present and not
0), the right one otherwise. -/
def jsOr (a b : Option Int) : Option Int :=
  match a with
  | some n => if n ≠ 0 then some n else b
  | none => b

/-- The handler `handleFollow` (lines 57-82) run from start to end. -/
def handleFollow {ρ : Type} (out : FollowOutcome) (s : State ρ) : State ρ :=
  match out with
  | FollowOutcome.response true following count =>
      { userProfile :=
          { s.userProfile with
            followersCount := jsOr count s.userProfile.followersCount }
        isFollowing := following
        followLoading := false }
  | FollowOutcome.response false _ _ => { s with followLoading := false }
  | FollowOutcome.threw => { s with followLoading := false }

/-- A profile with one follower, followed by the current user. -/
def sFollowed : State String :=
  { userProfile := { followersCount := some 1, others := "bob" }
    isFollowing := true
    followLoading := false }

end UserProfileScreen

/-! # Notification age (`src/screens/NotificationsScreen.js`) -/

namespace NotificationsScreen

/-- The argument of `getTimeAgo`: a falsy value (absent, `null`, the empty string, 0); a
truthy value that `new Date` reads as the instant `date`, in milliseconds since the epoch;
or a truthy value that `new Date` cannot read, which gives an invalid date. -/
inductive Timestamp where
  | falsy
  | readable (date : Int)
  | unreadable
  deriving DecidableEq, Repr

/-- The time value of `new Date(timestamp)` for a truthy timestamp: `none` is the `NaN` of
an invalid date. -/
def timeValue : Timestamp → Option Int
  | Timestamp.readable date => some date
  | _ => none

/-- The difference `now - date` of two dates: `NaN` when `date` is invalid. -/
def jsSub (now : Int) (date : Option Int) : Option Int :=
  date.map (fun d => now - d)

/-- The value `Math.floor(x / k)` for a positive `k`: `NaN` stays `NaN`, and the division
of `Int` rounds down. -/
def jsFloorDiv (x : Option Int) (k : Int) : Option Int :=
  x.map (fun v => v / k)

/-- The comparison `x < k`: false when `x` is `NaN`. -/
def jsLess (x : Option Int) (k : Int) : Bool :=
  match x with
  | some v => decide (v < k)
  | none => false

/-- A number inside a template literal. -/
def jsNumberString : Option Int → String
  | some v => toString v
  | none => "NaN"

/-- The method `date.toLocaleDateString()`: the locale rendering of a valid date, which is
not part of the sources and is the argument `toLocaleDateString`, and the string
`"Invalid Date"` for an invalid one. -/
def dateString (toLocaleDateString : Int → String) : Option Int → String
  | some date => toLocaleDateString date
  | none => "Invalid Date"

/-- The function `getTimeAgo` (lines 91-105); `now` is the instant of `new Date()`.  The
quantities are whole numbers of milliseconds, seconds, minutes, hours and days, or `NaN`;
the tests of lines 97-103 only compare them with 60, 60, 24 and 7, and on these the
arithmetic of the source is exact. -/
def getTimeAgo (toLocaleDateString : Int → String) (now : Int) (timestamp : Timestamp) :
    String :=
  match timestamp with
  | Timestamp.falsy => ""
  | _ =>
      let date := timeValue timestamp
      let seconds := jsFloorDiv (jsSub now date) 1000
      if jsLess seconds 60 then "Just now"
      else
        let minutes := jsFloorDiv seconds 60
        if jsLess minutes 60 then jsNumberString minutes ++ "m ago"
        else
          let hours := jsFloorDiv minutes 60
          if jsLess hours 24 then jsNumberString hours ++ "h ago"
          else
            let days := jsFloorDiv hours 24
            if jsLess days 7 then jsNumberString days ++ "d ago"
            else dateString toLocaleDateString date

/-- A stand-in for the locale rendering of a date. -/
def sampleLocale (date : Int) : String :=
  "date " ++ toString date

end NotificationsScreen

/-! # Likes on the own profile (`src/screens/ProfileScreen.js`) -/

namespace ProfileScreen

/-- A finite number of JavaScript (binary64) written `num / 2 ^ scale` in lowest terms:
`scale` is 0 or `num` is odd.  Every finite binary64 number has this form; a whole number
has `scale` 0.  The two zeros are not told apart. -/
structure Dyadic where
  num : Int
  scale : Nat
  deriving DecidableEq, Repr

/-- The lowest terms of `n / 2 ^ s`. -/
def normalize : Int → Nat → Dyadic
  | n, 0 => { num := n, scale := 0 }
  | n, s + 1 => if n % 2 = 0 then normalize (n / 2) s else { num := n, scale := s + 1 }

/-- The number of binary digits of `a`, counted with `fuel` halvings at most. -/
def bitLengthFuel : Nat → Nat → Nat
  | 0, _ => 0
  | fuel + 1, a => if a = 0 then 0 else bitLengthFuel fuel (a / 2) + 1

/-- The number of binary digits of `a`. -/
def bitLength (a : Nat) : Nat :=
  bitLengthFuel a a

/-- The natural number with 53 significant binary digits at most that is nearest to `a`, a
tie going to the one whose 53-digit significand is even: the rounding of binary64. -/
def roundNat (a : Nat) : Nat :=
  let bits := bitLength a
  if bits ≤ 53 then a
  else
    let k := bits - 53
    let q := a / 2 ^ k
    let r := a % 2 ^ k
    let half := 2 ^ (k - 1)
    if r < half then q * 2 ^ k
    else if half < r then (q + 1) * 2 ^ k
    else if q % 2 = 0 then q * 2 ^ k else (q + 1) * 2 ^ k

/-- The binary64 number nearest to `n / 2 ^ s`.  The exponent is not bounded here: the sum
of a finite binary64 number and 1 or -1 neither overflows nor is subnormal. -/
def roundDyadic (n : Int) (s : Nat) : Dyadic :=
  normalize (if n < 0 then -(roundNat n.natAbs : Int) else (roundNat n.natAbs : Int)) s

/-- The sum `d + k` of a finite number and a whole number, as binary64 computes it: the
exact sum, rounded. -/
def addInt (d : Dyadic) (k : Int) : Dyadic :=
  roundDyadic (d.num + k * ((2 ^ d.scale : Nat) : Int)) d.scale

/-- A value of type number. -/
inductive JsNumber where
  | nan
  | infinity (negative : Bool)
  | finite (value : Dyadic)
  deriving DecidableEq, Repr

/-- The sum of a number and a whole number (`post.likes + 1`, `post.likes - 1`). -/
def JsNumber.add (x : JsNumber) (k : Int) : JsNumber :=
  match x with
  | JsNumber.nan => JsNumber.nan
  | JsNumber.infinity negative => JsNumber.infinity negative
  | JsNumber.finite value => JsNumber.finite (addInt value k)

/-- The number that is the whole number `n`, for `n` of magnitude `2 ^ 53` at most. -/
def JsNumber.ofInt (n : Int) : JsNumber :=
  JsNumber.finite { num := n, scale := 0 }

/-- The test `Number.isSafeInteger`: a whole number of magnitude below `2 ^ 53`. -/
def JsNumber.isSafeInteger (x : JsNumber) : Bool :=
  match x with
  | JsNumber.finite value => value.scale = 0 && value.num.natAbs < 2 ^ 53
  | _ => false

/-- A post as `handleLike` reads it: its two keys (each may be absent), the like flag, the
like count, and its other fields. -/
structure Post (ρ : Type) where
  id : Option String
  _id : Option String
  isLiked : Bool
  likes : JsNumber
  others : ρ
  deriving DecidableEq, Repr

/-- The value `post.id || post._id` of line 94. -/
def postKey {ρ : Type} (post : Post ρ) : Option String :=
  match post.id with
  | some i => if CommentsModal.jsTruthy i then some i else post._id
  | none => post._id

/-- The object of lines 95-99: the post with `isLiked` negated and `likes` moved by one. -/
def toggled {ρ : Type} (post : Post ρ) : Post ρ :=
  { post with
    isLiked := !post.isLiked
    likes := if post.isLiked then post.likes.add (-1) else post.likes.add 1 }

/-- The updater handed to `setUserPosts` at lines 93-102. -/
def likeUpdate {ρ : Type} (postId : String) (prev : List (Post ρ)) : List (Post ρ) :=
  prev.map (fun post => if postKey post = some postId then toggled post else post)

/-- The handler `handleLike` (lines 90-103): when `likePost` rejects, the `await` throws
and the update is not reached. -/
def handleLike {ρ : Type} (postId : String) (likePostResolves : Bool)
    (userPosts : List (Post ρ)) : List (Post ρ) :=
  if likePostResolves then likeUpdate postId userPosts else userPosts

/-- Sample posts: one keyed by `id`, one by `_id` with an empty `id`, one without keys. -/
def samplePosts : List (Post String) :=
  [{ id := some "p1", _id := none, isLiked := false, likes := JsNumber.ofInt 3,
     others := "a" },
   { id := some "", _id := some "p2", isLiked := true, likes := JsNumber.ofInt 1,
     others := "b" },
   { id := none, _id := none, isLiked := false, likes := JsNumber.ofInt 0, others := "c" }]

/-- The second sample post: liked once, keyed by `_id` because its `id` is empty. -/
def likedPost : Post String :=
  { id := some "", _id := some "p2", isLiked := true, likes := JsNumber.ofInt 1,
    others := "b" }

/-- A post whose like count is `2 ^ 53`, not liked by the user. -/
def hugePost : Post String :=
  { id := some "p9", _id := none, isLiked := false,
    likes := JsNumber.ofInt 9007199254740992, others := "z" }

/-- The binary64 number nearest to one tenth, `3602879701896397 / 2 ^ 55`. -/
def oneTenth : JsNumber :=
  JsNumber.finite { num := 3602879701896397, scale := 55 }

/-- A post whose like count is the number `0.1`, not liked by the user. -/
def fractionPost : Post String :=
  { id := some "p8", _id := none, isLiked := false, likes := oneTenth, others := "y" }

end ProfileScreen

namespace CommentsModal

/-! ## Facts about `trim` and the filter -/

theorem trimChars_eq_nil_of_all_ws (cs : List Char)
    (h : ∀ c ∈ cs, isJsWhiteSpace c = true) : trimChars cs = [] := by
  have hdrop : cs.dropWhile isJsWhiteSpace = [] := List.dropWhile_eq_nil_iff.mpr h
  simp [trimChars, hdrop]

theorem jsTruthy_jsTrim_of_all_ws (d : String)
    (h : ∀ c ∈ d.data, isJsWhiteSpace c = true) : jsTruthy (jsTrim d) = false := by
  simp [jsTruthy, jsTrim, trimChars_eq_nil_of_all_ws d.data h]

theorem trimChars_head (cs : List Char) (c : Char) (h : (trimChars cs).head? = some c) :
    isJsWhiteSpace c = false := by
  have hpre : trimChars cs <+: cs.dropWhile isJsWhiteSpace :=
    List.rdropWhile_prefix isJsWhiteSpace (cs.dropWhile isJsWhiteSpace)
  obtain ⟨t, ht⟩ := hpre
  cases htc : trimChars cs with
  | nil => simp [htc] at h
  | cons a l =>
    rw [htc] at h ht
    simp only [List.head?_cons, Option.some.injEq] at h
    subst h
    have hnot := List.head?_dropWhile_not isJsWhiteSpace cs
    rw [← ht] at hnot
    simpa using hnot

theorem trimChars_last (cs : List Char) (c : Char) (h : (trimChars cs).getLast? = some c) :
    isJsWhiteSpace c = false := by
  unfold trimChars at h
  rw [List.getLast?_reverse] at h
  have hnot := List.head?_dropWhile_not isJsWhiteSpace (cs.dropWhile isJsWhiteSpace).reverse
  rw [h] at hnot
  exact hnot

theorem trimChars_of_ends (a b : Char) (m : List Char) (ha : isJsWhiteSpace a = false)
    (hb : isJsWhiteSpace b = false) : trimChars (a :: (m ++ [b])) = a :: (m ++ [b]) := by
  simp [trimChars, List.dropWhile_cons, ha, hb]

theorem removeById_of_not_mem (commentId : String) (S : List Comment)
    (h : commentId ∉ S.map (fun c => c._id)) : removeById commentId S = S := by
  unfold removeById
  rw [List.filter_eq_self]
  intro c hc
  have hne : c._id ≠ commentId := fun heq => h (heq ▸ List.mem_map_of_mem _ hc)
  simpa using hne

theorem removeById_idem (commentId : String) (S : List Comment) :
    removeById commentId (removeById commentId S) = removeById commentId S := by
  simp [removeById, List.filter_filter]

theorem removeById_not_mem (commentId : String) (S : List Comment) :
    ∀ c ∈ removeById commentId S, c._id ≠ commentId := by
  intro c hc
  simpa [removeById] using (List.mem_filter.mp hc).2

theorem removeById_split (commentId : String) (S : List Comment)
    (hnodup : (S.map (fun c => c._id)).Nodup) (hmem : commentId ∈ S.map (fun c => c._id)) :
    ∃ pre x post, S = pre ++ x :: post ∧ x._id = commentId ∧
      removeById commentId S = pre ++ post := by
  induction S with
  | nil => simp at hmem
  | cons a l ih =>
    rw [List.map_cons, List.nodup_cons] at hnodup
    by_cases ha : a._id = commentId
    · refine ⟨[], a, l, rfl, ha, ?_⟩
      have hl : commentId ∉ l.map (fun c => c._id) := ha ▸ hnodup.1
      have hrest := removeById_of_not_mem commentId l hl
      unfold removeById at hrest ⊢
      rw [List.filter_cons, if_neg (by simp [ha]), hrest]
      rfl
    · have hmem2 : commentId ∈ l.map (fun c => c._id) := by
        rw [List.map_cons, List.mem_cons] at hmem
        rcases hmem with h | h
        · exact absurd h.symm ha
        · exact h
      obtain ⟨pre, x, post, hS, hx, hr⟩ := ih hnodup.2 hmem2
      refine ⟨a :: pre, x, post, by rw [hS]; rfl, hx, ?_⟩
      have : removeById commentId (a :: l) = a :: removeById commentId l := by
        simp [removeById, List.filter_cons, ha]
      rw [this, hr]; rfl

theorem jsLength_replicate (n : Nat) :
    jsLength (String.mk (List.replicate n 'a')) = n := by
  have hunit : utf16Units 'a' = 1 := by decide
  simp [jsLength, List.map_replicate, List.sum_replicate, hunit]

theorem jsLength_replicate_emoji (n : Nat) :
    jsLength (String.mk (List.replicate n 'a') ++ "😂") = n + 2 := by
  have hunit : utf16Units 'a' = 1 := by decide
  have hemoji : utf16Units '😂' = 2 := by decide
  have hd : ("😂" : String).data = ['😂'] := rfl
  simp [jsLength, String.data_append, hd, List.map_replicate, List.sum_replicate, hunit,
    hemoji]

theorem jsTrim_replicate_emoji (n : Nat) :
    jsTrim (String.mk (List.replicate (n + 1) 'a') ++ "😂")
      = String.mk (List.replicate (n + 1) 'a') ++ "😂" := by
  have hdata : (String.mk (List.replicate (n + 1) 'a') ++ "😂").data
      = 'a' :: (List.replicate n 'a' ++ ['😂']) := by
    rw [String.data_append]
    rfl
  have ha : isJsWhiteSpace 'a' = false := by decide
  have hb : isJsWhiteSpace '😂' = false := by decide
  apply String.ext
  show trimChars (String.mk (List.replicate (n + 1) 'a') ++ "😂").data = _
  rw [hdata]
  exact trimChars_of_ends 'a' '😂' (List.replicate n 'a') ha hb

theorem jsLength_draft500 : jsLength draft500 = 500 :=
  jsLength_replicate 500

theorem jsTrim_overlong : jsTrim (draft500 ++ "😂") = draft500 ++ "😂" :=
  jsTrim_replicate_emoji 499

theorem sOverlong_eq : sOverlong = { State.initial with newComment := draft500 ++ "😂" } := by
  rfl

/-! ## Loading the store -/

/-- C1: whatever the store held, a successful `fetchComments` whose response carries the
list `C` leaves the store holding exactly `C` (same entries, same order); this also holds
when the response arrives in a state other than the one the fetch started from. -/
theorem C1_fetch_success_replaces_store (postId : String) (C : List Comment) (s cur : State) :
    (fetchComments postId (FetchOutcome.response true C) s).1.comments = C ∧
    (fetchCommentsResume (FetchOutcome.response true C) cur).1.comments = C := by
  constructor <;> rfl

/-! ## Submitting -/

/-- C2: with a draft whose trimmed text is not empty and no reply target, a successful
`handleSubmit` that returns the comment `c` leaves the store equal to `c` followed by the
former store (one entry more, `c` at index 0), the reply target `null` and the draft
empty. -/
theorem C2_top_level_success_prepends (postId : String) (c : Comment) (s : State)
    (hdraft : jsTruthy (jsTrim s.newComment) = true) (hidle : s.replyingTo = none) :
    (handleSubmit postId (CreateOutcome.response true c) s).1.comments = [c] ++ s.comments ∧
    (handleSubmit postId (CreateOutcome.response true c) s).1.comments.length
      = s.comments.length + 1 ∧
    (handleSubmit postId (CreateOutcome.response true c) s).1.comments.head? = some c ∧
    (handleSubmit postId (CreateOutcome.response true c) s).1.replyingTo = none ∧
    (handleSubmit postId (CreateOutcome.response true c) s).1.newComment = "" := by
  simp [handleSubmit, handleSubmitResume, hdraft, hidle, parentIdOf, parentIdTruthy]

theorem C2_top_level_success_prepends_witness :
    (jsTruthy (jsTrim sDraft.newComment) = true ∧ sDraft.replyingTo = none) ∧
    (handleSubmit "p1" (CreateOutcome.response true c2) sDraft).1.comments = [c2] ++ [c1] :=
  ⟨by decide, (C2_top_level_success_prepends "p1" c2 sDraft (by decide) (by decide)).1⟩

/-- The test of line 108 is a truthiness test: with a reply target whose `_id` is the empty
string, an id the collaborator does not assign, `parentId` is falsy and a successful
`handleSubmit` prepends the returned comment and issues no fetch. -/
theorem empty_id_target_prepends :
    sReplyEmptyId.replyingTo = some cEmptyId ∧
    jsTruthy (jsTrim sReplyEmptyId.newComment) = true ∧
    (handleSubmit "p1" (CreateOutcome.response true c2) sReplyEmptyId).1.comments
      = c2 :: sReplyEmptyId.comments ∧
    Effect.getComments "p1" ∉
      (handleSubmit "p1" (CreateOutcome.response true c2) sReplyEmptyId).2 := by
  decide

/-- C3: when a reply target `X` is set (its `_id` being, like every id the collaborator
assigns, a non-empty string) and the create operation succeeds, `handleSubmit` does not
prepend (the store is left as it was), starts `fetchComments` (it calls
`getComments(postId)` once, so that a successful response `C` becomes the store), and
resets the reply target to `null` and the draft to `""`. -/
theorem C3_reply_success_refetches (postId : String) (c X : Comment) (s : State)
    (hdraft : jsTruthy (jsTrim s.newComment) = true) (hreply : s.replyingTo = some X)
    (hid : X._id ≠ "") :
    (handleSubmit postId (CreateOutcome.response true c) s).1.comments = s.comments ∧
    (handleSubmit postId (CreateOutcome.response true c) s).2
      = [Effect.createComment postId (jsTrim s.newComment) (some X._id),
         Effect.getComments postId, Effect.keyboardDismiss] ∧
    (handleSubmit postId (CreateOutcome.response true c) s).1.replyingTo = none ∧
    (handleSubmit postId (CreateOutcome.response true c) s).1.newComment = "" ∧
    ∀ C : List Comment,
      (fetchCommentsResume (FetchOutcome.response true C)
        (handleSubmit postId (CreateOutcome.response true c) s).1).1.comments = C := by
  have htruthy : jsTruthy X._id = true := by
    have hdata : X._id.data ≠ [] := fun h => hid (String.ext h)
    simp [jsTruthy, hdata]
  simp [handleSubmit, handleSubmitResume, hdraft, hreply, parentIdOf, parentIdTruthy,
    htruthy, fetchCommentsStart, fetchCommentsResume]

theorem C3_reply_success_refetches_witness :
    (jsTruthy (jsTrim sReply.newComment) = true ∧ sReply.replyingTo = some c1 ∧
      c1._id ≠ "") ∧
    (handleSubmit "p1" (CreateOutcome.response true c2) sReply).1.comments = sReply.comments ∧
    (handleSubmit "p1" (CreateOutcome.response true c2) sReply).2
      = [Effect.createComment "p1" (jsTrim sReply.newComment) (some c1._id),
         Effect.getComments "p1", Effect.keyboardDismiss] :=
  ⟨by decide,
   (C3_reply_success_refetches "p1" c2 c1 sReply (by decide) (by decide) (by decide)).1,
   (C3_reply_success_refetches "p1" c2 c1 sReply (by decide) (by decide) (by decide)).2.1⟩

/-- C4: when the draft is empty or made of white space only, `handleSubmit` returns at
line 98: it issues no call at all (so none to the create operation) and leaves the whole
state, hence the store, the reply target and the draft, as it was. -/
theorem C4_blank_draft_is_rejected (postId : String) (out : CreateOutcome) (s : State)
    (hblank : ∀ ch ∈ s.newComment.data, isJsWhiteSpace ch = true) :
    handleSubmit postId out s = (s, []) := by
  simp [handleSubmit, jsTruthy_jsTrim_of_all_ws s.newComment hblank]

theorem C4_blank_draft_is_rejected_witness :
    (∀ ch ∈ sBlank.newComment.data, isJsWhiteSpace ch = true) ∧
    handleSubmit "p1" (CreateOutcome.response true c2) sBlank = (sBlank, []) :=
  ⟨by decide, C4_blank_draft_is_rejected "p1" (CreateOutcome.response true c2) sBlank
    (by decide)⟩

/-- C5: when the create call fails (it throws, or answers with `success` false),
`handleSubmit` leaves the draft, the reply target and the store at the values they had
before the call; the part that runs after the `await` does not write them either,
whatever the state is when the failure arrives. -/
theorem C5_create_failure_keeps_state (postId : String) (c : Comment) (s cur : State) :
    ((handleSubmit postId CreateOutcome.threw s).1.newComment = s.newComment ∧
     (handleSubmit postId CreateOutcome.threw s).1.replyingTo = s.replyingTo ∧
     (handleSubmit postId CreateOutcome.threw s).1.comments = s.comments) ∧
    ((handleSubmit postId (CreateOutcome.response false c) s).1.newComment = s.newComment ∧
     (handleSubmit postId (CreateOutcome.response false c) s).1.replyingTo = s.replyingTo ∧
     (handleSubmit postId (CreateOutcome.response false c) s).1.comments = s.comments) ∧
    ((handleSubmitResume postId s CreateOutcome.threw cur).1.newComment = cur.newComment ∧
     (handleSubmitResume postId s CreateOutcome.threw cur).1.replyingTo = cur.replyingTo ∧
     (handleSubmitResume postId s CreateOutcome.threw cur).1.comments = cur.comments) ∧
    ((handleSubmitResume postId s (CreateOutcome.response false c) cur).1.newComment
        = cur.newComment ∧
     (handleSubmitResume postId s (CreateOutcome.response false c) cur).1.replyingTo
        = cur.replyingTo ∧
     (handleSubmitResume postId s (CreateOutcome.response false c) cur).1.comments
        = cur.comments) := by
  refine ⟨?_, ?_, ?_, ?_⟩
  · unfold handleSubmit; split <;> simp [handleSubmitResume]
  · unfold handleSubmit; split <;> simp [handleSubmitResume]
  · simp [handleSubmitResume]
  · simp [handleSubmitResume]

/-- C6, counterexample: `handleSubmit` does not read `submitting`: called while a
submission is in flight it calls the create operation again and, on success, changes the
store. -/
theorem C6_counterexample_no_guard_in_handler :
    sInFlight.submitting = true ∧
    (handleSubmit "p1" (CreateOutcome.response true c2) sInFlight).2
      = [Effect.createComment "p1" "hello" none, Effect.keyboardDismiss] ∧
    (handleSubmit "p1" (CreateOutcome.response true c2) sInFlight).1.comments
      ≠ sInFlight.comments := by
  decide

/-- C6, amended: while `submitting` is true the Post button is disabled, so a press does not
run `handleSubmit`: no call is issued and the state, the store included, is unchanged. -/
theorem C6_press_while_submitting_ignored (postId : String) (out : CreateOutcome) (s : State)
    (hflight : s.submitting = true) :
    pressPostButton postId out s = (s, []) := by
  simp [pressPostButton, postButtonDisabled, hflight]

theorem C6_press_while_submitting_ignored_witness :
    sInFlight.submitting = true ∧
    pressPostButton "p1" (CreateOutcome.response true c2) sInFlight = (sInFlight, []) :=
  ⟨by decide, C6_press_while_submitting_ignored "p1" (CreateOutcome.response true c2)
    sInFlight (by decide)⟩

/-- C7: with a draft whose trimmed text is not empty, whatever the collaborator answers,
the first thing `handleSubmit` issues is the call
`createComment(postId, trim(draft), parentId)`, it is the only create call, `parentId` is
the `_id` of the reply target when there is one and `null` otherwise, and the content has
neither leading nor trailing white space. -/
theorem C7_create_call_arguments (postId : String) (out : CreateOutcome) (s : State)
    (hdraft : jsTruthy (jsTrim s.newComment) = true) :
    (∃ rest, (handleSubmit postId out s).2
        = Effect.createComment postId (jsTrim s.newComment)
            (match s.replyingTo with
             | some X => some X._id
             | none => none) :: rest ∧
      ∀ e ∈ rest, Effect.isCreate e = false) ∧
    (∀ ch, (jsTrim s.newComment).data.head? = some ch → isJsWhiteSpace ch = false) ∧
    (∀ ch, (jsTrim s.newComment).data.getLast? = some ch → isJsWhiteSpace ch = false) := by
  refine ⟨?_, fun ch h => trimChars_head _ ch h, fun ch h => trimChars_last _ ch h⟩
  unfold handleSubmit
  rw [if_pos hdraft]
  refine ⟨(handleSubmitResume postId s out { s with submitting := true }).2, ?_, ?_⟩
  · cases hr : s.replyingTo <;> simp [parentIdOf]
  · intro e he
    unfold handleSubmitResume at he
    rcases out with _ | ⟨_ | _, c⟩
    · simp at he; subst he; rfl
    · simp at he
    · simp only at he
      split at he
      · simp [fetchCommentsStart] at he
        rcases he with he | he <;> subst he <;> rfl
      · simp at he; subst he; rfl

theorem C7_create_call_arguments_witness :
    jsTruthy (jsTrim sReply.newComment) = true ∧
    ∃ rest, (handleSubmit "p1" CreateOutcome.threw sReply).2
        = Effect.createComment "p1" (jsTrim sReply.newComment)
            (match sReply.replyingTo with
             | some X => some X._id
             | none => none) :: rest ∧
      ∀ e ∈ rest, Effect.isCreate e = false :=
  ⟨by decide, (C7_create_call_arguments "p1" CreateOutcome.threw sReply (by decide)).1⟩

/-- C8: the draft obtained by typing 500 letters (which `maxLength` allows) and then picking
one emoji is sent as it is: `handleSubmit` passes a content of 502 code units to the
create operation. -/
theorem C8_emoji_append_exceeds_limit :
    jsLength draft500 = 500 ∧
    (onChangeText draft500 State.initial).1.newComment = draft500 ∧
    sOverlong.newComment = draft500 ++ "😂" ∧
    (handleSubmit "p1" CreateOutcome.threw sOverlong).2.head?
      = some (Effect.createComment "p1" (draft500 ++ "😂") none) ∧
    jsLength (draft500 ++ "😂") = 502 := by
  have htruthy : jsTruthy (jsTrim (draft500 ++ "😂")) = true := by
    rw [jsTrim_overlong]
    have hd : ("😂" : String).data = ['😂'] := rfl
    simp [jsTruthy, String.data_append, hd]
  refine ⟨jsLength_draft500, ?_, ?_, ?_, jsLength_replicate_emoji 500⟩
  · rfl
  · rw [sOverlong_eq]
  · rw [sOverlong_eq]
    unfold handleSubmit
    rw [if_pos htruthy]
    show some (Effect.createComment "p1" (jsTrim (draft500 ++ "😂")) none) = _
    rw [jsTrim_overlong]

/-! ## Deleting -/

/-- C9: when the ids of the store are pairwise distinct and `commentId` is one of them, a
successful `handleDeleteComment(commentId)` leaves a store with one entry less, in which no
entry has that id, and which is the former store with that single entry taken out (the
other entries keep their order). -/
theorem C9_delete_present_removes_one (commentId : String) (s : State)
    (hnodup : (s.comments.map (fun c => c._id)).Nodup)
    (hmem : commentId ∈ s.comments.map (fun c => c._id)) :
    (handleDeleteComment commentId (DeleteOutcome.response true) s).1.comments.length
      = s.comments.length - 1 ∧
    (handleDeleteComment commentId (DeleteOutcome.response true) s).1.comments.length + 1
      = s.comments.length ∧
    (∀ c ∈ (handleDeleteComment commentId (DeleteOutcome.response true) s).1.comments,
      c._id ≠ commentId) ∧
    ∃ pre x post, s.comments = pre ++ x :: post ∧ x._id = commentId ∧
      (handleDeleteComment commentId (DeleteOutcome.response true) s).1.comments
        = pre ++ post := by
  have hstore : (handleDeleteComment commentId (DeleteOutcome.response true) s).1.comments
      = removeById commentId s.comments := rfl
  obtain ⟨pre, x, post, hS, hx, hr⟩ := removeById_split commentId s.comments hnodup hmem
  rw [hstore]
  refine ⟨?_, ?_, removeById_not_mem commentId s.comments, pre, x, post, hS, hx, hr⟩
  · rw [hr, hS]; simp
  · rw [hr, hS]; simp; omega

theorem C9_delete_present_removes_one_witness :
    ((sDraft.comments.map (fun c => c._id)).Nodup ∧
      "c1" ∈ sDraft.comments.map (fun c => c._id)) ∧
    (handleDeleteComment "c1" (DeleteOutcome.response true) sDraft).1.comments.length
      = sDraft.comments.length - 1 ∧
    (handleDeleteComment "c1" (DeleteOutcome.response true) sDraft).1.comments = [] :=
  ⟨by decide, (C9_delete_present_removes_one "c1" sDraft (by decide) (by decide)).1,
   by decide⟩

/-- C10: when `commentId` is the id of no entry of the store, a successful
`handleDeleteComment(commentId)` leaves the state, hence the store, as it was and logs no
error (its only effect is the delete call); and, for every store, deleting the same id a
second time gives the store the first deletion gave. -/
theorem C10_delete_absent_is_noop (commentId : String) (s : State)
    (habsent : commentId ∉ s.comments.map (fun c => c._id)) :
    handleDeleteComment commentId (DeleteOutcome.response true) s
      = (s, [Effect.deleteComment commentId]) ∧
    ∀ t : State,
      (handleDeleteComment commentId (DeleteOutcome.response true)
        (handleDeleteComment commentId (DeleteOutcome.response true) t).1).1.comments
      = (handleDeleteComment commentId (DeleteOutcome.response true) t).1.comments := by
  constructor
  · simp [handleDeleteComment, handleDeleteCommentResume,
      removeById_of_not_mem commentId s.comments habsent]
  · intro t
    exact removeById_idem commentId t.comments

theorem C10_delete_absent_is_noop_witness :
    "zz" ∉ sDraft.comments.map (fun c => c._id) ∧
    handleDeleteComment "zz" (DeleteOutcome.response true) sDraft
      = (sDraft, [Effect.deleteComment "zz"]) :=
  ⟨by decide, (C10_delete_absent_is_noop "zz" sDraft (by decide)).1⟩

/-- C11: when the delete call fails (it throws, or answers with `success` false),
`handleDeleteComment` leaves the store as it was; the part that runs after the `await`
does not write the store either, whatever the state is when the failure arrives. -/
theorem C11_delete_failure_keeps_store (commentId : String) (s cur : State) :
    (handleDeleteComment commentId DeleteOutcome.threw s).1.comments = s.comments ∧
    (handleDeleteComment commentId (DeleteOutcome.response false) s).1.comments
      = s.comments ∧
    (handleDeleteCommentResume commentId s DeleteOutcome.threw cur).1.comments
      = cur.comments ∧
    (handleDeleteCommentResume commentId s (DeleteOutcome.response false) cur).1.comments
      = cur.comments :=
  ⟨rfl, rfl, rfl, rfl⟩

/-! ## The reply target -/

/-- C12: for every comment and every non-empty username `u`, `handleReply(comment, u)`,
from a state with or without a reply target, makes the comment the reply target and sets
the draft to `"@" ++ u ++ " "`. -/
theorem C12_reply_prefills_mention (comment : Comment) (u : String) (s : State)
    (hu : u ≠ "") :
    (handleReply comment (some u) s).1.replyingTo = some comment ∧
    (handleReply comment (some u) s).1.newComment = "@" ++ u ++ " " := by
  have htruthy : jsTruthy u = true := by
    have hdata : u.data ≠ [] := fun h => hu (String.ext h)
    simp [jsTruthy, hdata]
  simp [handleReply, htruthy]

theorem C12_reply_prefills_mention_witness :
    ("alice" : String) ≠ "" ∧
    (handleReply c2 (some "alice") sReply).1.replyingTo = some c2 ∧
    (handleReply c2 (some "alice") sReply).1.newComment = "@alice " :=
  ⟨by decide, C12_reply_prefills_mention c2 "alice" sReply (by decide)⟩

/-- C13, counterexample: with an absent or an empty username `handleReply` replaces the
draft `"  hello "` by the empty string. -/
theorem C13_counterexample_draft_cleared :
    (handleReply c1 none sDraft).1.newComment ≠ sDraft.newComment ∧
    (handleReply c1 (some "") sDraft).1.newComment ≠ sDraft.newComment := by
  decide

/-- C13, amended: with an absent or an empty username, `handleReply(comment, username)`
makes the comment the reply target and sets the draft to the empty string, whatever the
draft was. -/
theorem C13_reply_without_username_clears_draft (comment : Comment) (s : State) :
    (handleReply comment none s).1.replyingTo = some comment ∧
    (handleReply comment none s).1.newComment = "" ∧
    (handleReply comment (some "") s).1.replyingTo = some comment ∧
    (handleReply comment (some "") s).1.newComment = "" :=
  ⟨rfl, rfl, rfl, rfl⟩

/-- C14: from every state, in particular one with a reply target and a draft, `cancelReply`
sets the reply target to `null` and the draft to the empty string and leaves the store as
it was. -/
theorem C14_cancel_reply_resets (s : State) :
    (cancelReply s).1.replyingTo = none ∧
    (cancelReply s).1.newComment = "" ∧
    (cancelReply s).1.comments = s.comments :=
  ⟨rfl, rfl, rfl⟩

/-! ## Opening and closing -/

/-- C15: from every state, the effect run with `visible` false sets the reply target to
`null`, the draft to the empty string and the emoji picker to hidden, and none of its
effects is a fetch. -/
theorem C15_close_resets_composer (postId : String) (s : State) :
    (visibilityEffect false postId s).1.replyingTo = none ∧
    (visibilityEffect false postId s).1.newComment = "" ∧
    (visibilityEffect false postId s).1.showEmojiPicker = false ∧
    ∀ e ∈ (visibilityEffect false postId s).2, Effect.isFetch e = false := by
  refine ⟨rfl, rfl, rfl, ?_⟩
  intro e he
  simp [visibilityEffect] at he
  subst he
  rfl

/-- C16: the effect run with `visible` true issues exactly one fetch, `getComments(postId)`
for the current `postId`, and a successful response to it becomes the store. -/
theorem C16_open_fetches_once (postId : String) (s : State) (C : List Comment) :
    (visibilityEffect true postId s).2.filter Effect.isFetch = [Effect.getComments postId] ∧
    (fetchCommentsResume (FetchOutcome.response true C)
      (visibilityEffect true postId s).1).1.comments = C :=
  ⟨rfl, rfl⟩

/-- A call that settles leaves an absent reply target absent and an empty draft empty. -/
theorem settled_keeps_idle (e : Settled) (cur : State)
    (h : cur.replyingTo = none ∧ cur.newComment = "") :
    (e.apply cur).replyingTo = none ∧ (e.apply cur).newComment = "" := by
  rcases e with out | ⟨postId, closure, out⟩ | ⟨commentId, closure, out⟩
  · rcases out with _ | ⟨_ | _, cs⟩ <;> exact h
  · rcases out with _ | ⟨_ | _, c⟩
    · exact h
    · exact h
    · exact ⟨rfl, rfl⟩
  · rcases out with _ | ⟨_ | _⟩ <;> exact h

theorem whileClosed_keeps_idle (w : WhileClosed) (cur : State)
    (h : cur.replyingTo = none ∧ cur.newComment = "") :
    (w.apply cur).replyingTo = none ∧ (w.apply cur).newComment = "" := by
  cases w with
  | settled e => exact settled_keeps_idle e cur h
  | postIdChanged postId => exact ⟨rfl, rfl⟩

theorem whileClosedAll_keeps_idle (ws : List WhileClosed) (cur : State)
    (h : cur.replyingTo = none ∧ cur.newComment = "") :
    (whileClosedAll ws cur).replyingTo = none ∧ (whileClosedAll ws cur).newComment = "" := by
  induction ws generalizing cur with
  | nil => exact h
  | cons w rest ih => exact ih (w.apply cur) (whileClosed_keeps_idle w cur h)

/-- C17: whatever the state `s` before the close, after the effect has run with `visible`
false, after anything that can run while the overlay is closed (calls that settle, with
any outcome and any closure, and further runs of the closing branch), and after the effect
has run with `visible` true, the reply target is `null` and the draft is empty. -/
theorem C17_reply_target_cleared_on_reopen (s : State) (postId postId2 : String)
    (ws : List WhileClosed) :
    (whileClosedAll ws (visibilityEffect false postId s).1).replyingTo = none ∧
    (whileClosedAll ws (visibilityEffect false postId s).1).newComment = "" ∧
    (visibilityEffect true postId2
      (whileClosedAll ws (visibilityEffect false postId s).1)).1.replyingTo = none ∧
    (visibilityEffect true postId2
      (whileClosedAll ws (visibilityEffect false postId s).1)).1.newComment = "" := by
  have h := whileClosedAll_keeps_idle ws (visibilityEffect false postId s).1 ⟨rfl, rfl⟩
  exact ⟨h.1, h.2, h.1, h.2⟩

/-- C18: an overlay that holds `c1` and `c2` for the post `p1` is closed and opened again
for the post `p2`.  The closing branch and the opening branch leave the store as it is,
the opening branch issues the fetch for `p2`, and when that fetch fails the store still
holds `c1` and `c2` with `loading` false, so that the list shows them. -/
theorem C18_store_survives_reopen :
    sBusy.comments = [c1, c2] ∧
    (visibilityEffect false "p1" sBusy).1.comments = [c1, c2] ∧
    (visibilityEffect true "p2" (visibilityEffect false "p1" sBusy).1).1.comments
      = [c1, c2] ∧
    (visibilityEffect true "p2" (visibilityEffect false "p1" sBusy).1).2
      = [Effect.getComments "p2", Effect.animatedSpring 1] ∧
    (fetchCommentsResume FetchOutcome.threw
      (visibilityEffect true "p2" (visibilityEffect false "p1" sBusy).1).1).1.comments
      = [c1, c2] ∧
    (fetchCommentsResume FetchOutcome.threw
      (visibilityEffect true "p2" (visibilityEffect false "p1" sBusy).1).1).1.loading
      = false ∧
    (fetchCommentsResume (FetchOutcome.response false [])
      (visibilityEffect true "p2" (visibilityEffect false "p1" sBusy).1).1).1.comments
      = [c1, c2] := by
  decide

/-- Neither branch of the visibility effect writes the store, from any state; so when a
close is directly followed by a re-open and nothing else settles in between, the store is
the one held at the close until the new fetch succeeds. -/
theorem visibilityEffect_keeps_store (visible : Bool) (s : State) (postId postId2 : String)
    (C : List Comment) :
    (visibilityEffect visible postId s).1.comments = s.comments ∧
    (visibilityEffect true postId2 (visibilityEffect false postId s).1).1.comments
      = s.comments ∧
    (fetchCommentsResume (FetchOutcome.response true C)
      (visibilityEffect true postId2 (visibilityEffect false postId s).1).1).1.comments
      = C := by
  refine ⟨?_, rfl, rfl⟩
  cases visible <;> rfl

/-! ## Uniqueness of ids -/

theorem idsOf_removeById_nodup (commentId : String) (S : List Comment)
    (h : (idsOf S).Nodup) : (idsOf (removeById commentId S)).Nodup := by
  have hsub : List.Sublist (idsOf (removeById commentId S)) (idsOf S) :=
    List.Sublist.map _ (List.filter_sublist S)
  exact h.sublist hsub

/-- One admissible call that settles in a state whose store, like every earlier value of
the store, has pairwise distinct ids leaves a store with pairwise distinct ids. -/
theorem settled_nodup (e : Settled) (cur : State) (past : List (List Comment))
    (hpast : ∀ S ∈ past, (idsOf S).Nodup) (hcur : cur.comments ∈ past)
    (hadm : e.admissible past = true) : (idsOf (e.apply cur).comments).Nodup := by
  have hc := hpast _ hcur
  rcases e with out | ⟨postId, closure, out⟩ | ⟨commentId, closure, out⟩
  · rcases out with _ | ⟨_ | _, cs⟩
    · exact hc
    · exact hc
    · simpa [Settled.admissible] using hadm
  · rcases out with _ | ⟨_ | _, c⟩
    · exact hc
    · exact hc
    · simp only [Settled.admissible, Bool.and_eq_true, decide_eq_true_eq] at hadm
      simp only [Settled.apply, handleSubmitResume]
      split
      · exact hc
      · show (idsOf (c :: closure.comments)).Nodup
        exact List.nodup_cons.mpr ⟨hadm.2, hpast _ hadm.1⟩
  · rcases out with _ | ⟨_ | _⟩
    · exact hc
    · exact hc
    · simp only [Settled.admissible, decide_eq_true_eq] at hadm
      exact idsOf_removeById_nodup commentId closure.comments (hpast _ hadm)

theorem storesAlong_nodup (es : List Settled) (cur : State) (past : List (List Comment))
    (hpast : ∀ S ∈ past, (idsOf S).Nodup) (hcur : cur.comments ∈ past)
    (hadm : admissibleAlong es cur past = true) :
    (∀ S ∈ storesAlong es cur past, (idsOf S).Nodup) ∧
    (settleAll es cur).comments ∈ storesAlong es cur past := by
  induction es generalizing cur past with
  | nil => exact ⟨hpast, hcur⟩
  | cons e rest ih =>
    simp only [admissibleAlong, Bool.and_eq_true] at hadm
    have hnew := settled_nodup e cur past hpast hcur hadm.1
    have hpast2 : ∀ S ∈ (e.apply cur).comments :: past, (idsOf S).Nodup := by
      intro S hS
      rcases List.mem_cons.mp hS with h | h
      · exact h ▸ hnew
      · exact hpast S h
    exact ih (e.apply cur) ((e.apply cur).comments :: past) hpast2
      (List.mem_cons_self _ _) hadm.2

/-- C19: start from a state whose store is empty and let any calls settle, in any order and
with any outcome (loads of `fetchComments`, prepends of `handleSubmit`, removals of
`handleDeleteComment`, each with the store its closure captured when it was invoked).  If
every fetched list has pairwise distinct ids and every created comment has an id that the
store its submission captured does not hold, then every value the store takes, the last
one included, has pairwise distinct ids. -/
theorem C19_ids_stay_unique (es : List Settled) (s : State) (hempty : s.comments = [])
    (hadm : admissibleAlong es s [s.comments] = true) :
    (∀ S ∈ storesAlong es s [s.comments], (idsOf S).Nodup) ∧
    (idsOf (settleAll es s).comments).Nodup := by
  have hpast : ∀ S ∈ [s.comments], (idsOf S).Nodup := by
    intro S hS
    rw [List.mem_singleton.mp hS, hempty]
    exact List.nodup_nil
  have h := storesAlong_nodup es s [s.comments] hpast (List.mem_singleton.mpr rfl) hadm
  exact ⟨h.1, h.1 _ h.2⟩

theorem C19_ids_stay_unique_witness :
    (State.initial.comments = [] ∧
      admissibleAlong interleaved State.initial [State.initial.comments] = true) ∧
    storesAlong interleaved State.initial [State.initial.comments]
      = [[c2], [c3], [c1, c2], []] ∧
    (idsOf (settleAll interleaved State.initial).comments).Nodup :=
  ⟨by decide, by decide,
   (C19_ids_stay_unique interleaved State.initial (by decide) (by decide)).2⟩

/-! ## Errors of the collaborator -/

theorem fetchCommentsRun_agrees (postId : String) (out : FetchOutcome) (s : State) :
    ((fetchCommentsRun postId out s).state, (fetchCommentsRun postId out s).effects)
      = fetchComments postId out s := by
  rcases out with _ | ⟨_ | _, cs⟩ <;> rfl

theorem handleDeleteCommentRun_agrees (commentId : String) (out : DeleteOutcome) (s : State) :
    ((handleDeleteCommentRun commentId out s).state,
      (handleDeleteCommentRun commentId out s).effects)
      = handleDeleteComment commentId out s := by
  rcases out with _ | ⟨_ | _⟩ <;> rfl

theorem handleSubmitRun_agrees (postId : String) (out : CreateOutcome) (s : State) :
    ((handleSubmitRun postId out s).state, (handleSubmitRun postId out s).effects)
      = handleSubmit postId out s := by
  unfold handleSubmitRun handleSubmit
  split
  · rcases out with _ | ⟨_ | _, c⟩
    · rfl
    · rfl
    · simp only [handleSubmitTry, handleSubmitResume, Run.catchLog, Run.finallySet]
  · rfl

/-- An error of the collaborator does leave the `try` block of each handler. -/
theorem try_blocks_throw (postId commentId : String) (s : State) :
    (fetchCommentsTry postId FetchOutcome.threw s).completion
      = Completion.thrown "getComments" ∧
    (handleSubmitTry postId CreateOutcome.threw s).completion
      = Completion.thrown "createComment" ∧
    (handleDeleteCommentTry commentId DeleteOutcome.threw s).completion
      = Completion.thrown "deleteComment" :=
  ⟨rfl, rfl, rfl⟩

/-- C20: whatever the collaborator does (it throws, answers with `success` false or with
`success` true), from every state, `fetchComments`, `handleSubmit` and
`handleDeleteComment` end normally: no error leaves them. -/
theorem C20_no_error_leaves_the_handlers (postId commentId : String) (s : State)
    (fetched : FetchOutcome) (created : CreateOutcome) (deleted : DeleteOutcome) :
    (fetchCommentsRun postId fetched s).completion = Completion.normal ∧
    (handleSubmitRun postId created s).completion = Completion.normal ∧
    (handleDeleteCommentRun commentId deleted s).completion = Completion.normal := by
  refine ⟨?_, ?_, ?_⟩
  · rcases fetched with _ | ⟨_ | _, cs⟩ <;> rfl
  · unfold handleSubmitRun
    split
    · rcases created with _ | ⟨_ | _, c⟩ <;> rfl
    · rfl
  · rcases deleted with _ | ⟨_ | _⟩ <;> rfl

/-! ## What the caller can tell -/

/-- C21, counterexample: `handleSubmit` resolves to the same value after a successful
create call, after a failed one and after the early return on a blank draft; so do
`handleDeleteComment` and `fetchComments` after a success and after a failure. -/
theorem C21_counterexample_same_value :
    handleSubmitValue (CreateOutcome.response true c2) sDraft
      = handleSubmitValue CreateOutcome.threw sDraft ∧
    handleSubmitValue (CreateOutcome.response true c2) sDraft
      = handleSubmitValue (CreateOutcome.response true c2) sBlank ∧
    handleDeleteCommentValue (DeleteOutcome.response true)
      = handleDeleteCommentValue DeleteOutcome.threw ∧
    fetchCommentsValue (FetchOutcome.response true [c1])
      = fetchCommentsValue FetchOutcome.threw := by
  decide

/-- C21, amended: `handleSubmit`, `handleDeleteComment` and `fetchComments` hand no result
back: whatever the collaborator does and whatever the state, each resolves to
`undefined`. -/
theorem C21_handlers_resolve_to_undefined (fetched : FetchOutcome) (created : CreateOutcome)
    (deleted : DeleteOutcome) (s : State) :
    fetchCommentsValue fetched = JsValue.undefined ∧
    handleSubmitValue created s = JsValue.undefined ∧
    handleDeleteCommentValue deleted = JsValue.undefined := by
  refine ⟨?_, ?_, ?_⟩
  · rcases fetched with _ | ⟨_ | _, cs⟩ <;> rfl
  · unfold handleSubmitValue
    split
    · rcases created with _ | ⟨_ | _, c⟩ <;> rfl
    · rfl
  · rcases deleted with _ | ⟨_ | _⟩ <;> rfl

/-- C22: from every state, when the fetch fails (it throws, or answers with `success`
false), `fetchComments` leaves the store, the reply target and the draft as they were and
ends with `loading` false; the part that runs after the `await` behaves so in any state. -/
theorem C22_fetch_failure_keeps_state (postId : String) (C : List Comment) (s cur : State) :
    ((fetchComments postId FetchOutcome.threw s).1.comments = s.comments ∧
     (fetchComments postId FetchOutcome.threw s).1.replyingTo = s.replyingTo ∧
     (fetchComments postId FetchOutcome.threw s).1.newComment = s.newComment ∧
     (fetchComments postId FetchOutcome.threw s).1.loading = false) ∧
    ((fetchComments postId (FetchOutcome.response false C) s).1.comments = s.comments ∧
     (fetchComments postId (FetchOutcome.response false C) s).1.replyingTo = s.replyingTo ∧
     (fetchComments postId (FetchOutcome.response false C) s).1.newComment = s.newComment ∧
     (fetchComments postId (FetchOutcome.response false C) s).1.loading = false) ∧
    ((fetchCommentsResume FetchOutcome.threw cur).1.comments = cur.comments ∧
     (fetchCommentsResume FetchOutcome.threw cur).1.replyingTo = cur.replyingTo ∧
     (fetchCommentsResume FetchOutcome.threw cur).1.newComment = cur.newComment ∧
     (fetchCommentsResume FetchOutcome.threw cur).1.loading = false) ∧
    ((fetchCommentsResume (FetchOutcome.response false C) cur).1.comments = cur.comments ∧
     (fetchCommentsResume (FetchOutcome.response false C) cur).1.replyingTo
       = cur.replyingTo ∧
     (fetchCommentsResume (FetchOutcome.response false C) cur).1.newComment
       = cur.newComment ∧
     (fetchCommentsResume (FetchOutcome.response false C) cur).1.loading = false) :=
  ⟨⟨rfl, rfl, rfl, rfl⟩, ⟨rfl, rfl, rfl, rfl⟩, ⟨rfl, rfl, rfl, rfl⟩, ⟨rfl, rfl, rfl, rfl⟩⟩

/-- C23: a deletion of `c1` is invoked on the store `[c1, c2]`; while its call is in flight
a fetch loads `[c1, c2, c3]`; when the deletion succeeds the store becomes `[c2]`, the
filter of the captured array, and not `[c2, c3]`, the filter of the store as it stands.
Likewise a deletion invoked on `[c1]` that settles after `c2` was put in front leaves the
empty store, not `[c2]`. -/
theorem C23_delete_filters_captured_store :
    sBusy.comments = [c1, c2] ∧ sLoaded.comments = [c1, c2, c3] ∧
    (handleDeleteCommentResume "c1" sBusy (DeleteOutcome.response true) sLoaded).1.comments
      = [c2] ∧
    removeById "c1" sLoaded.comments = [c2, c3] ∧
    sDraft.comments = [c1] ∧ sPrepended.comments = [c2, c1] ∧
    (handleDeleteCommentResume "c1" sDraft (DeleteOutcome.response true)
      sPrepended).1.comments = [] ∧
    removeById "c1" sPrepended.comments = [c2] := by
  decide

theorem handleSubmit_eq_start_resume (postId : String) (out : CreateOutcome) (s : State)
    (hdraft : jsTruthy (jsTrim s.newComment) = true) :
    handleSubmit postId out s
      = ((handleSubmitResume postId s out (handleSubmitStart postId s).1).1,
         (handleSubmitStart postId s).2
           ++ (handleSubmitResume postId s out (handleSubmitStart postId s).1).2) := by
  simp [handleSubmit, handleSubmitStart, hdraft]

theorem handleSubmitResume_submitting (postId : String) (closure : State)
    (out : CreateOutcome) (cur : State) :
    (handleSubmitResume postId closure out cur).1.submitting = false := by
  rcases out with _ | ⟨_ | _, c⟩ <;> rfl

/-- C24: with a draft whose trimmed text is not empty, `handleSubmit` has set `submitting`
to true when it calls the create operation (the state at the `await`), and whatever the
call does (success, reported failure, throw) `submitting` is false once the handler has
finished, also when the call settles in a later state; with a blank draft the handler
leaves the state, hence the flag, as it was. -/
theorem C24_submitting_tracks_the_call (postId : String) (s : State) :
    (jsTruthy (jsTrim s.newComment) = true →
      (handleSubmitStart postId s).1.submitting = true ∧
      (handleSubmitStart postId s).2
        = [Effect.createComment postId (jsTrim s.newComment) (parentIdOf s.replyingTo)] ∧
      (∀ out, (handleSubmit postId out s).1.submitting = false) ∧
      (∀ out cur, (handleSubmitResume postId s out cur).1.submitting = false)) ∧
    (jsTruthy (jsTrim s.newComment) = false →
      (handleSubmitStart postId s).1 = s ∧
      (handleSubmitStart postId s).2 = [] ∧
      ∀ out, (handleSubmit postId out s).1.submitting = s.submitting) := by
  constructor
  · intro hdraft
    refine ⟨?_, ?_, ?_, fun out cur => handleSubmitResume_submitting postId s out cur⟩
    · simp [handleSubmitStart, hdraft]
    · simp [handleSubmitStart, hdraft]
    · intro out
      rw [handleSubmit_eq_start_resume postId out s hdraft]
      exact handleSubmitResume_submitting postId s out _
  · intro hblank
    refine ⟨?_, ?_, ?_⟩
    · simp [handleSubmitStart, hblank]
    · simp [handleSubmitStart, hblank]
    · intro out
      simp [handleSubmit, hblank]

theorem C24_submitting_tracks_the_call_witness :
    (jsTruthy (jsTrim sDraft.newComment) = true ∧
      jsTruthy (jsTrim sBlank.newComment) = false) ∧
    ((handleSubmitStart "p1" sDraft).1.submitting = true ∧
      (handleSubmitStart "p1" sDraft).2
        = [Effect.createComment "p1" (jsTrim sDraft.newComment)
            (parentIdOf sDraft.replyingTo)] ∧
      (∀ out, (handleSubmit "p1" out sDraft).1.submitting = false) ∧
      (∀ out cur, (handleSubmitResume "p1" sDraft out cur).1.submitting = false)) ∧
    (handleSubmitStart "p1" sBlank).1 = sBlank :=
  ⟨by decide, (C24_submitting_tracks_the_call "p1" sDraft).1 (by decide),
   ((C24_submitting_tracks_the_call "p1" sBlank).2 (by decide)).1⟩

/-- C25: from every state and for every id, whatever the delete call does (success,
reported failure, throw), `handleDeleteComment` leaves the reply target, the draft and
`submitting` as they were, also when it settles in a later state and also when the deleted
comment is the reply target. -/
theorem C25_delete_keeps_composer (commentId : String) (out : DeleteOutcome)
    (s cur : State) :
    ((handleDeleteComment commentId out s).1.replyingTo = s.replyingTo ∧
     (handleDeleteComment commentId out s).1.newComment = s.newComment ∧
     (handleDeleteComment commentId out s).1.submitting = s.submitting) ∧
    ((handleDeleteCommentResume commentId s out cur).1.replyingTo = cur.replyingTo ∧
     (handleDeleteCommentResume commentId s out cur).1.newComment = cur.newComment ∧
     (handleDeleteCommentResume commentId s out cur).1.submitting = cur.submitting) ∧
    (∀ target : Comment, s.replyingTo = some target →
      (handleDeleteComment target._id out s).1.replyingTo = some target) := by
  refine ⟨?_, ?_, ?_⟩
  · rcases out with _ | ⟨_ | _⟩ <;> exact ⟨rfl, rfl, rfl⟩
  · rcases out with _ | ⟨_ | _⟩ <;> exact ⟨rfl, rfl, rfl⟩
  · intro target htarget
    rw [← htarget]
    rcases out with _ | ⟨_ | _⟩ <;> rfl

theorem C25_delete_keeps_composer_witness :
    sBusy.replyingTo = some c1 ∧
    (handleDeleteComment c1._id (DeleteOutcome.response true) sBusy).1.replyingTo
      = some c1 :=
  ⟨by decide,
   (C25_delete_keeps_composer "c1" (DeleteOutcome.response true) sBusy sBusy).2.2 c1
     (by decide)⟩

end CommentsModal

namespace ThemeUtils

/-- C26: `adjustColor` returns its colour whatever the amount; hence, for every mode, a
truthy accent colour gives a `primary` that is `colors.primary` with `main` set to the
accent and `gradient` set to the accent twice, and a falsy accent colour (absent, `null`
or the empty string) gives `colors.primary` itself. -/
theorem C26_adjustColor_is_identity {ρ β τ κ : Type} (colors : Colors ρ β τ κ)
    (mode : Scheme) (c : String) (a : Int) :
    adjustColor c a = c ∧
    (∀ accent : String, accent ≠ "" →
      (getTheme colors mode (some accent)).primary
        = { main := accent, gradient := [accent, accent],
            others := colors.primary.others }) ∧
    (getTheme colors mode none).primary = colors.primary ∧
    (getTheme colors mode (some "")).primary = colors.primary := by
  refine ⟨rfl, ?_, rfl, rfl⟩
  intro accent haccent
  have htruthy : CommentsModal.jsTruthy accent = true := by
    have hdata : accent.data ≠ [] := fun h => haccent (String.ext h)
    simp [CommentsModal.jsTruthy, hdata]
  simp [getTheme, htruthy, adjustColor]

theorem C26_adjustColor_is_identity_witness :
    ("#FF0000" : String) ≠ "" ∧
    (getTheme sampleColors Scheme.null (some "#FF0000")).primary
      = { main := "#FF0000", gradient := ["#FF0000", "#FF0000"], others := "light" } :=
  ⟨by decide,
   (C26_adjustColor_is_identity sampleColors Scheme.null "#FF0000" 20).2.1 "#FF0000"
     (by decide)⟩

/-- C27: for every mode and accent colour, `isDark` is true exactly when the mode is the
string `"dark"`; `background` and `text` are the dark palettes in that case and the light
ones for every other mode, `null` and `undefined` included; the field `mode` is the
argument; and with the theme mode `"system"` the mode handed over by `ThemeProvider` is
the system scheme. -/
theorem C27_mode_selects_palettes {ρ β τ κ : Type} (colors : Colors ρ β τ κ)
    (mode : Scheme) (accentColor : Option String) :
    ((getTheme colors mode accentColor).isDark = true ↔ mode = Scheme.text "dark") ∧
    (mode = Scheme.text "dark" →
      (getTheme colors mode accentColor).background = colors.background.dark ∧
      (getTheme colors mode accentColor).text = colors.text.dark) ∧
    (mode ≠ Scheme.text "dark" →
      (getTheme colors mode accentColor).background = colors.background.light ∧
      (getTheme colors mode accentColor).text = colors.text.light) ∧
    (getTheme colors mode accentColor).mode = mode ∧
    activeMode "system" mode = mode := by
  refine ⟨?_, ?_, ?_, rfl, ?_⟩
  · simp [getTheme]
  · intro h
    simp [getTheme, h]
  · intro h
    simp [getTheme, h]
  · simp [activeMode]

theorem C27_mode_selects_palettes_witness :
    (Scheme.null ≠ Scheme.text "dark" ∧ Scheme.text "dark" = Scheme.text "dark") ∧
    ((getTheme sampleColors Scheme.null none).background = "bg-light" ∧
      (getTheme sampleColors Scheme.null none).text = "text-light") ∧
    ((getTheme sampleColors (Scheme.text "dark") none).background = "bg-dark" ∧
      (getTheme sampleColors (Scheme.text "dark") none).text = "text-dark") :=
  ⟨by decide, (C27_mode_selects_palettes sampleColors Scheme.null none).2.2.1 (by decide),
   (C27_mode_selects_palettes sampleColors (Scheme.text "dark") none).2.1 rfl⟩

end ThemeUtils

namespace UserProfileScreen

/-- What `handleFollow` does when the count of the response is not 0, and on a failure. -/
theorem handleFollow_nonzero_count {ρ : Type} (s : State ρ) (following : Bool) (count : Int)
    (hcount : count ≠ 0) (fcount : Option Int) :
    (handleFollow (FollowOutcome.response true following (some count)) s).userProfile
      = { s.userProfile with followersCount := some count } ∧
    (handleFollow (FollowOutcome.response true following (some count)) s).isFollowing
      = following ∧
    (handleFollow (FollowOutcome.response false following fcount) s).userProfile
      = s.userProfile ∧
    (handleFollow (FollowOutcome.response false following fcount) s).isFollowing
      = s.isFollowing ∧
    (handleFollow FollowOutcome.threw s).userProfile = s.userProfile ∧
    (handleFollow FollowOutcome.threw s).isFollowing = s.isFollowing := by
  refine ⟨?_, rfl, rfl, rfl, rfl, rfl⟩
  simp [handleFollow, jsOr, hcount]

/-- C28: a profile with one follower is unfollowed and the response says `success`, not
following any more, 0 followers: `isFollowing` becomes false but `followersCount` stays 1,
because the 0 of the response is falsy at line 74. -/
theorem C28_zero_count_is_dropped :
    sFollowed.userProfile.followersCount = some 1 ∧
    (handleFollow (FollowOutcome.response true false (some 0)) sFollowed).isFollowing
      = false ∧
    (handleFollow (FollowOutcome.response true false (some 0))
      sFollowed).userProfile.followersCount = some 1 := by
  decide

end UserProfileScreen


namespace NotificationsScreen

/-- The buckets of `getTimeAgo`.  A falsy timestamp gives the empty string.  For a timestamp
read as the instant `date`, with `s` the whole seconds elapsed, rounded down: `s < 60` (a
negative `s` included) gives `"Just now"`; else with `m = s / 60`, `m < 60` gives `m`
followed by `"m ago"` and then `1 ≤ m ≤ 59`; else with `h = m / 60`, `h < 24` gives `h`
followed by `"h ago"` and then `1 ≤ h ≤ 23`; else with `d = h / 24`, `d < 7` gives `d`
followed by `"d ago"` and then `1 ≤ d ≤ 6`; and `7 ≤ d` gives the locale date string. -/
theorem getTimeAgo_buckets (toLocaleDateString : Int → String) (now date : Int) :
    getTimeAgo toLocaleDateString now Timestamp.falsy = "" ∧
    ((now - date) / 1000 < 60 →
      getTimeAgo toLocaleDateString now (Timestamp.readable date) = "Just now") ∧
    (60 ≤ (now - date) / 1000 → (now - date) / 1000 / 60 < 60 →
      getTimeAgo toLocaleDateString now (Timestamp.readable date)
        = toString ((now - date) / 1000 / 60) ++ "m ago" ∧
      1 ≤ (now - date) / 1000 / 60 ∧ (now - date) / 1000 / 60 ≤ 59) ∧
    (60 ≤ (now - date) / 1000 / 60 → (now - date) / 1000 / 60 / 60 < 24 →
      getTimeAgo toLocaleDateString now (Timestamp.readable date)
        = toString ((now - date) / 1000 / 60 / 60) ++ "h ago" ∧
      1 ≤ (now - date) / 1000 / 60 / 60 ∧ (now - date) / 1000 / 60 / 60 ≤ 23) ∧
    (24 ≤ (now - date) / 1000 / 60 / 60 → (now - date) / 1000 / 60 / 60 / 24 < 7 →
      getTimeAgo toLocaleDateString now (Timestamp.readable date)
        = toString ((now - date) / 1000 / 60 / 60 / 24) ++ "d ago" ∧
      1 ≤ (now - date) / 1000 / 60 / 60 / 24 ∧ (now - date) / 1000 / 60 / 60 / 24 ≤ 6) ∧
    (7 ≤ (now - date) / 1000 / 60 / 60 / 24 →
      getTimeAgo toLocaleDateString now (Timestamp.readable date)
        = toLocaleDateString date) := by
  refine ⟨rfl, ?_, ?_, ?_, ?_, ?_⟩
  · intro hs
    simp [getTimeAgo, timeValue, jsSub, jsFloorDiv, jsLess, hs]
  · intro hs hm
    have hs2 : ¬ (now - date) / 1000 < 60 := by omega
    refine ⟨?_, by omega, by omega⟩
    simp [getTimeAgo, timeValue, jsSub, jsFloorDiv, jsLess, jsNumberString, hs2, hm]
  · intro hm hh
    have hs2 : ¬ (now - date) / 1000 < 60 := by omega
    have hm2 : ¬ (now - date) / 1000 / 60 < 60 := by omega
    refine ⟨?_, by omega, by omega⟩
    simp [getTimeAgo, timeValue, jsSub, jsFloorDiv, jsLess, jsNumberString, hs2, hm2, hh]
  · intro hh hd
    have hs2 : ¬ (now - date) / 1000 < 60 := by omega
    have hm2 : ¬ (now - date) / 1000 / 60 < 60 := by omega
    have hh2 : ¬ (now - date) / 1000 / 60 / 60 < 24 := by omega
    refine ⟨?_, by omega, by omega⟩
    simp [getTimeAgo, timeValue, jsSub, jsFloorDiv, jsLess, jsNumberString, hs2, hm2, hh2,
      hd]
  · intro hd
    have hs2 : ¬ (now - date) / 1000 < 60 := by omega
    have hm2 : ¬ (now - date) / 1000 / 60 < 60 := by omega
    have hh2 : ¬ (now - date) / 1000 / 60 / 60 < 24 := by omega
    have hd2 : ¬ (now - date) / 1000 / 60 / 60 / 24 < 7 := by omega
    simp [getTimeAgo, timeValue, jsSub, jsFloorDiv, jsLess, dateString, hs2, hm2, hh2, hd2]

/-- Three evaluations of `getTimeAgo`: a timestamp five seconds ahead, one five hours old,
one eight days old. -/
theorem getTimeAgo_samples :
    getTimeAgo sampleLocale 0 (Timestamp.readable 5000) = "Just now" ∧
    getTimeAgo sampleLocale 18000000 (Timestamp.readable 0) = "5h ago" ∧
    getTimeAgo sampleLocale 691200000 (Timestamp.readable 0) = sampleLocale 0 := by
  decide

/-- C29: for a truthy timestamp that `new Date` cannot read, whatever the instant `now` and
the locale, the seconds, minutes, hours and days are all `NaN`, each test of lines 97-103 is
false, and `getTimeAgo` returns the locale string of the invalid date, `"Invalid Date"`,
although no count of days reaches 7. -/
theorem C29_unreadable_timestamp_falls_through (toLocaleDateString : Int → String)
    (now : Int) :
    jsFloorDiv (jsSub now (timeValue Timestamp.unreadable)) 1000 = none ∧
    jsLess (jsFloorDiv (jsSub now (timeValue Timestamp.unreadable)) 1000) 60 = false ∧
    jsLess (jsFloorDiv (jsFloorDiv (jsFloorDiv (jsFloorDiv
      (jsSub now (timeValue Timestamp.unreadable)) 1000) 60) 60) 24) 7 = false ∧
    getTimeAgo toLocaleDateString now Timestamp.unreadable
      = dateString toLocaleDateString (timeValue Timestamp.unreadable) ∧
    getTimeAgo toLocaleDateString now Timestamp.unreadable = "Invalid Date" :=
  ⟨rfl, rfl, rfl, rfl, rfl⟩

end NotificationsScreen

namespace ProfileScreen

theorem bitLengthFuel_le (fuel a k : Nat) (h : a < 2 ^ k) : bitLengthFuel fuel a ≤ k := by
  induction fuel generalizing a k with
  | zero => simp [bitLengthFuel]
  | succ fuel ih =>
    unfold bitLengthFuel
    split
    · exact Nat.zero_le k
    · rename_i ha
      cases k with
      | zero => simp at h; exact absurd h ha
      | succ k =>
        have hhalf : a / 2 < 2 ^ k := by
          rw [Nat.pow_succ] at h
          omega
        exact Nat.succ_le_succ (ih (a / 2) k hhalf)

/-- A natural number up to `2 ^ 53` is a binary64 number: rounding leaves it as it is. -/
theorem roundNat_of_le (a : Nat) (h : a ≤ 2 ^ 53) : roundNat a = a := by
  rcases Nat.lt_or_eq_of_le h with hlt | heq
  · have hbits : bitLength a ≤ 53 := bitLengthFuel_le a a 53 hlt
    simp [roundNat, hbits]
  · subst heq
    decide

/-- On whole numbers whose sum has magnitude `2 ^ 53` at most, the sum is exact. -/
theorem addInt_whole (n k : Int) (h : (n + k).natAbs ≤ 2 ^ 53) :
    addInt { num := n, scale := 0 } k = { num := n + k, scale := 0 } := by
  have hround := roundNat_of_le (n + k).natAbs h
  simp only [addInt, roundDyadic, normalize, pow_zero, Nat.cast_one, mul_one, hround]
  congr 1
  split <;> omega

theorem add_ofInt (n k : Int) (h : (n + k).natAbs ≤ 2 ^ 53) :
    (JsNumber.ofInt n).add k = JsNumber.ofInt (n + k) := by
  simp [JsNumber.add, JsNumber.ofInt, addInt_whole n k h]

theorem isSafeInteger_iff (x : JsNumber) :
    x.isSafeInteger = true ↔ ∃ n : Int, x = JsNumber.ofInt n ∧ n.natAbs < 2 ^ 53 := by
  constructor
  · intro h
    rcases x with _ | _ | ⟨num, scale⟩
    · simp [JsNumber.isSafeInteger] at h
    · simp [JsNumber.isSafeInteger] at h
    · simp only [JsNumber.isSafeInteger, Bool.and_eq_true, decide_eq_true_eq] at h
      refine ⟨num, ?_, h.2⟩
      simp [JsNumber.ofInt, h.1]
  · rintro ⟨n, rfl, hn⟩
    simp only [JsNumber.isSafeInteger, JsNumber.ofInt, Bool.and_eq_true, decide_eq_true_eq]
    exact ⟨trivial, hn⟩

theorem postKey_toggled {ρ : Type} (post : Post ρ) : postKey (toggled post) = postKey post :=
  rfl

theorem toggled_toggled {ρ : Type} (post : Post ρ) (hsafe : post.likes.isSafeInteger = true) :
    toggled (toggled post) = post := by
  obtain ⟨n, hn, hlt⟩ := (isSafeInteger_iff post.likes).mp hsafe
  rcases post with ⟨id, altId, liked, likes, others⟩
  simp only at hn
  subst hn
  cases liked
  · have h1 : (JsNumber.ofInt n).add 1 = JsNumber.ofInt (n + 1) := add_ofInt n 1 (by omega)
    have h2 : (JsNumber.ofInt (n + 1)).add (-1) = JsNumber.ofInt n := by
      rw [add_ofInt (n + 1) (-1) (by omega)]
      congr 1
      omega
    simp [toggled, h1, h2]
  · have h1 : (JsNumber.ofInt n).add (-1) = JsNumber.ofInt (n + -1) :=
      add_ofInt n (-1) (by omega)
    have h2 : (JsNumber.ofInt (n + -1)).add 1 = JsNumber.ofInt n := by
      rw [add_ofInt (n + -1) 1 (by omega)]
      congr 1
      omega
    simp [toggled, h1, h2]

/-- C30, counterexample: a post that is not liked and whose count is the number `2 ^ 53`.
One update negates `isLiked` and leaves the count at `2 ^ 53` instead of adding 1; a second
update gives the count `2 ^ 53 - 1`, so the list is not restored.  Likewise for the count
`0.1`: two updates leave `0.1000000000000000888`, not `0.1`. -/
theorem C30_counterexample_rounded_count :
    hugePost.isLiked = false ∧ postKey hugePost = some "p9" ∧
    hugePost.likes = JsNumber.ofInt 9007199254740992 ∧
    likeUpdate "p9" [hugePost]
      = [{ hugePost with isLiked := true, likes := JsNumber.ofInt 9007199254740992 }] ∧
    likeUpdate "p9" (likeUpdate "p9" [hugePost])
      = [{ hugePost with likes := JsNumber.ofInt 9007199254740991 }] ∧
    likeUpdate "p9" (likeUpdate "p9" [hugePost]) ≠ [hugePost] ∧
    likeUpdate "p8" (likeUpdate "p8" [fractionPost]) ≠ [fractionPost] := by
  decide

/-- C30, amended: for every list of posts whose like counts are safe integers (whole
numbers of magnitude below `2 ^ 53`), the update of `handleLike` keeps the length and the
order of the list; at every position, a post whose key (`id`, or `_id` when `id` is falsy)
is `postId` is replaced by the same post with `isLiked` negated and the count one more (it
was not liked) or one less (it was liked), and every other post is kept; applying the
update twice gives the list back.  The handler applies this update when `likePost`
resolves. -/
theorem C30_like_update_is_involution {ρ : Type} (postId : String) (posts : List (Post ρ))
    (hsafe : ∀ post ∈ posts, post.likes.isSafeInteger = true) :
    (likeUpdate postId posts).length = posts.length ∧
    (∀ (i : Nat) (post : Post ρ) (n : Int), posts[i]? = some post →
      post.likes = JsNumber.ofInt n → postKey post = some postId →
      ∃ q, (likeUpdate postId posts)[i]? = some q ∧
        q.isLiked = (!post.isLiked) ∧
        (post.isLiked = false → q.likes = JsNumber.ofInt (n + 1)) ∧
        (post.isLiked = true → q.likes = JsNumber.ofInt (n - 1)) ∧
        q.id = post.id ∧ q._id = post._id ∧ q.others = post.others) ∧
    (∀ (i : Nat) (post : Post ρ), posts[i]? = some post → postKey post ≠ some postId →
      (likeUpdate postId posts)[i]? = some post) ∧
    likeUpdate postId (likeUpdate postId posts) = posts ∧
    handleLike postId true posts = likeUpdate postId posts := by
  refine ⟨?_, ?_, ?_, ?_, rfl⟩
  · simp [likeUpdate]
  · intro i post n hi hn hkey
    have hmem : post ∈ posts := List.getElem?_mem hi
    obtain ⟨m, hm, hlt⟩ := (isSafeInteger_iff post.likes).mp (hsafe post hmem)
    have hmn : m = n := by
      rw [hn] at hm
      simpa [JsNumber.ofInt] using hm.symm
    subst hmn
    refine ⟨toggled post, ?_, rfl, ?_, ?_, rfl, rfl, rfl⟩
    · simp [likeUpdate, List.getElem?_map, hi, hkey]
    · intro h
      simp only [toggled, h, hn]
      exact add_ofInt m 1 (by omega)
    · intro h
      simp only [toggled, h, hn]
      exact add_ofInt m (-1) (by omega)
  · intro i post hi hkey
    simp [likeUpdate, List.getElem?_map, hi, hkey]
  · unfold likeUpdate
    rw [List.map_map]
    conv_rhs => rw [← List.map_id posts]
    apply List.map_congr_left
    intro post hpost
    by_cases hkey : postKey post = some postId
    · simp [hkey, postKey_toggled, toggled_toggled post (hsafe post hpost)]
    · simp [hkey]

theorem C30_like_update_is_involution_witness :
    ((∀ post ∈ samplePosts, post.likes.isSafeInteger = true) ∧
      samplePosts[1]? = some likedPost ∧ likedPost.likes = JsNumber.ofInt 1 ∧
      postKey likedPost = some "p2") ∧
    (∃ q, (likeUpdate "p2" samplePosts)[1]? = some q ∧
      q.isLiked = (!likedPost.isLiked) ∧
      (likedPost.isLiked = false → q.likes = JsNumber.ofInt (1 + 1)) ∧
      (likedPost.isLiked = true → q.likes = JsNumber.ofInt (1 - 1)) ∧
      q.id = likedPost.id ∧ q._id = likedPost._id ∧ q.others = likedPost.others) ∧
    likeUpdate "p2" (likeUpdate "p2" samplePosts) = samplePosts :=
  ⟨by decide,
   (C30_like_update_is_involution "p2" samplePosts (by decide)).2.1 1 likedPost 1
     (by decide) (by decide) (by decide),
   (C30_like_update_is_involution "p2" samplePosts (by decide)).2.2.2.1⟩

end ProfileScreen
